import Mathlib

/-!
Verification of the retrosheet-buddy play-encoding core (editor.py, parser.py,
writer.py) against its natural-language specification.

The Python source is shallowly embedded: each Python method becomes a Lean
function of the same name (module-level, snake_case preserved).  Optional
string attributes that Python initialises to `None` and only ever tests for
truthiness or membership in string lists are embedded as `String` with `""`
standing for `None` (observationally equivalent for every use site in the
source).  Console output is modelled as an append-only `messages` list so that
"reports a hint" claims are statable; file persistence (`_save_current_state`)
is modelled as a message append, since the writer is an external collaborator.
-/

/-- Decode a two-character count string, mirroring
`int(start_count[0]) / int(start_count[1])` under a
`try/except (ValueError, IndexError)` that defaults both to 0
(editor.py `_calculate_count` / `_calculate_raw_balls_strikes` prologue). -/
def parse_start_count (start_count : String) : Nat × Nat :=
  match start_count.toList with
  | b :: s :: _ =>
    if b.isDigit ∧ s.isDigit then (b.toNat - 48, s.toNat - 48) else (0, 0)
  | _ => (0, 0)

/-- One step of the ball/strike accumulation loop shared by
`_calculate_count` and `_calculate_raw_balls_strikes` (editor.py):
B adds a ball; S/C add a strike; F adds a strike only below two strikes;
T adds a strike unconditionally; all other pitch codes are ignored. -/
def raw_step (bs : Nat × Nat) (pitch : Char) : Nat × Nat :=
  let balls := bs.1
  let strikes := bs.2
  if pitch = 'B' then (balls + 1, strikes)
  else if pitch = 'S' ∨ pitch = 'C' then (balls, strikes + 1)
  else if pitch = 'F' then
    (balls, if strikes < 2 then strikes + 1 else strikes)
  else if pitch = 'T' then (balls, strikes + 1)
  else (balls, strikes)

/-- editor.py `_calculate_raw_balls_strikes`: uncapped balls and strikes of a
pitch sequence, starting from the decoded starting count. -/
def calculate_raw_balls_strikes (pitches : String) (start_count : String) :
    Nat × Nat :=
  pitches.toList.foldl raw_step (parse_start_count start_count)

/-- editor.py `_calculate_count`: the display count, i.e. the raw totals with
balls capped at 3 and strikes capped at 2, formatted as two digits. -/
def calculate_count (pitches : String) (start_count : String) : String :=
  let raw := calculate_raw_balls_strikes pitches start_count
  toString (min raw.1 3) ++ toString (min raw.2 2)

/-- editor.py `_has_strikeout`: walks the pitch sequence from a 0-0 count
(it deliberately takes no starting count) and returns true as soon as the
accumulated strikes reach 3. -/
def has_strikeout_aux : List Char → Nat → Bool
  | [], _ => false
  | pitch :: rest, strikes =>
    let strikes' :=
      if pitch = 'S' ∨ pitch = 'C' then strikes + 1
      else if pitch = 'F' then
        if strikes < 2 then strikes + 1 else strikes
      else if pitch = 'T' then strikes + 1
      else strikes
    if strikes' ≥ 3 then true else has_strikeout_aux rest strikes'

/-- editor.py `_has_strikeout` entry point. -/
def has_strikeout (pitches : String) : Bool :=
  has_strikeout_aux pitches.toList 0

/-- parser.py `_calculate_count`: the parser's own variant used to fill in a
working count for records whose original count is the `"??"` sentinel.  It
ignores foul tips ('T') and caps at 4 balls / 3 strikes. -/
def parser_calculate_count (pitches : String) : String :=
  let totals :=
    pitches.toList.foldl
      (fun bs pitch =>
        let balls := bs.1
        let strikes := bs.2
        if pitch = 'B' then (balls + 1, strikes)
        else if pitch = 'S' ∨ pitch = 'C' then (balls, strikes + 1)
        else if pitch = 'F' then
          (balls, if strikes < 2 then strikes + 1 else strikes)
        else (balls, strikes))
      (0, 0)
  toString (min totals.1 4) ++ toString (min totals.2 3)

/-- Balls digit of a two-digit display count (first character). -/
def display_balls_digit (count : String) : Nat :=
  (count.toList.getD 0 '0').toNat - 48

/-- Strikes digit of a two-digit display count (second character). -/
def display_strikes_digit (count : String) : Nat :=
  (count.toList.getD 1 '0').toNat - 48

lemma raw_step_fst (bs : Nat × Nat) (c : Char) :
    (raw_step bs c).1 = bs.1 + (if c = 'B' then 1 else 0) := by
  unfold raw_step
  by_cases h : c = 'B' <;> simp [h] <;> split_ifs <;> rfl

lemma foldl_raw_step_fst (l : List Char) (bs : Nat × Nat) :
    (l.foldl raw_step bs).1 = bs.1 + l.count 'B' := by
  induction l generalizing bs with
  | nil => simp
  | cons c rest ih =>
    simp only [List.foldl_cons, ih, raw_step_fst, List.count_cons]
    by_cases h : c = 'B' <;> simp [h] <;> omega

lemma calculate_count_eq (pitches start_count : String) :
    calculate_count pitches start_count =
      toString (min (calculate_raw_balls_strikes pitches start_count).1 3) ++
      toString (min (calculate_raw_balls_strikes pitches start_count).2 2) := rfl

lemma digits_of_small (b s : Nat) (hb : b ≤ 3) (hs : s ≤ 2) :
    display_balls_digit (toString b ++ toString s) = b ∧
    display_strikes_digit (toString b ++ toString s) = s := by
  have hb' : b = 0 ∨ b = 1 ∨ b = 2 ∨ b = 3 := by omega
  have hs' : s = 0 ∨ s = 1 ∨ s = 2 := by omega
  rcases hb' with h | h | h | h <;> rcases hs' with h2 | h2 | h2 <;>
    subst h <;> subst h2 <;> constructor <;> rfl

/-- C1: for every pitch-event sequence and starting count, the display count
is the raw totals capped (balls at 3, strikes at 2) formatted as two digits,
so its balls digit is at most 3 and its strikes digit is at most 2 even when
the raw totals exceed the caps. -/
theorem count_display_capped (pitches start_count : String) :
    calculate_count pitches start_count =
      toString (min (calculate_raw_balls_strikes pitches start_count).1 3) ++
      toString (min (calculate_raw_balls_strikes pitches start_count).2 2) ∧
    display_balls_digit (calculate_count pitches start_count) =
      min (calculate_raw_balls_strikes pitches start_count).1 3 ∧
    display_strikes_digit (calculate_count pitches start_count) =
      min (calculate_raw_balls_strikes pitches start_count).2 2 ∧
    display_balls_digit (calculate_count pitches start_count) ≤ 3 ∧
    display_strikes_digit (calculate_count pitches start_count) ≤ 2 := by
  have hb : min (calculate_raw_balls_strikes pitches start_count).1 3 ≤ 3 :=
    min_le_right _ _
  have hs : min (calculate_raw_balls_strikes pitches start_count).2 2 ≤ 2 :=
    min_le_right _ _
  have hd := digits_of_small _ _ hb hs
  refine ⟨rfl, ?_, ?_, ?_, ?_⟩
  · rw [calculate_count_eq]; exact hd.1
  · rw [calculate_count_eq]; exact hd.2
  · rw [calculate_count_eq, hd.1]; exact hb
  · rw [calculate_count_eq, hd.2]; exact hs

lemma toList_string_append (s t : String) :
    (s ++ t).toList = s.toList ++ t.toList := by
  simp [String.toList]

/-- C2 (amended): in the raw-count derivation, a foul ('F') increments the
raw strikes only below two strikes while a foul tip ('T') increments them
unconditionally; `"SSFFF"` reaches only raw strikes 2 while `"SST"` reaches
raw strikes 3 and is classified as a strikeout — but its display count is
`"02"` (strikes are capped at 2 for display), not `"03"`. -/
theorem foul_vs_foul_tip :
    (∀ (p start_count : String),
      calculate_raw_balls_strikes (p ++ "F") start_count =
        ((calculate_raw_balls_strikes p start_count).1,
         if (calculate_raw_balls_strikes p start_count).2 < 2 then
           (calculate_raw_balls_strikes p start_count).2 + 1
         else (calculate_raw_balls_strikes p start_count).2)) ∧
    (∀ (p start_count : String),
      calculate_raw_balls_strikes (p ++ "T") start_count =
        ((calculate_raw_balls_strikes p start_count).1,
         (calculate_raw_balls_strikes p start_count).2 + 1)) ∧
    calculate_raw_balls_strikes "SSFFF" "00" = (0, 2) ∧
    calculate_raw_balls_strikes "SST" "00" = (0, 3) ∧
    has_strikeout "SST" = true ∧
    calculate_count "SST" "00" = "02" := by
  refine ⟨?_, ?_, by rfl, by rfl, by rfl, by rfl⟩
  · intro p start_count
    unfold calculate_raw_balls_strikes
    rw [toList_string_append, List.foldl_append]
    rfl
  · intro p start_count
    unfold calculate_raw_balls_strikes
    rw [toList_string_append, List.foldl_append]
    rfl

/-- C2 counterexample: the claim asserts that `deriveCount("SST")` displays
`"03"`, but the code caps the strikes digit at 2 and displays `"02"`. -/
theorem sst_display_not_03 :
    calculate_count "SST" "00" = "02" ∧ ("02" : String) ≠ "03" := by
  exact ⟨by rfl, by decide⟩

/-- models.py `Play`: the per-plate-appearance record.  `original_count` is
`Option String` exactly as in the source (`None` when absent, and the `"??"`
sentinel is preserved). -/
structure Play where
  inning : Nat
  team : Nat
  batter_id : String
  count : String
  original_count : Option String := none
  pitches : String
  play_description : String
  edited : Bool := false
deriving Repr, DecidableEq

/-- The `Play` fields the parser fills for records it skips; used as the
out-of-range default for list lookups (the theorems carry in-range
hypotheses wherever Python would have indexed the list). -/
def defaultPlay : Play :=
  { inning := 0, team := 0, batter_id := "", count := "", original_count := none,
    pitches := "", play_description := "", edited := false }

/-- models.py `Game`, restricted to the fields the editor core reads or
writes (`game_id`, `plays`); roster/info/comment fields are untouched by the
operations under verification. -/
structure Game where
  game_id : String
  plays : List Play
deriving Repr, DecidableEq

def defaultGame : Game := { game_id := "", plays := [] }

/-- editor.py `RetrosheetEditor` session state, restricted to the fields the
claims' operations read or write.  Python `None` for the optional string
fields is embedded as `""` (every use site only tests truthiness, equality
with a non-empty literal, or membership in a list of non-empty literals).
`undo_history` entries are (game index, play index, pitches, play
description) exactly as pushed by `_save_state_for_undo`; `messages` models
`console.print` output. -/
structure EditorState where
  games : List Game
  current_game_index : Nat
  current_play_index : Nat
  mode : String
  undo_history : List (Nat × Nat × String × String)
  detail_mode_result : String
  detail_mode_hit_type : String
  detail_mode_out_type : String
  detail_mode_fielders : List Nat
  detail_mode_from_pitch_pb_wp : Bool
  detail_mode_pb_wp_code : String
  detail_pickoff_base : String
  detail_pickoff_fielders : List Nat
  detail_pickoff_error_fielder : Option Nat
  detail_pickoff_awaiting_error_fielder : Bool
  runner_tokens : List String
  advance_from_base : String
  oa_stage : String
  oa_from_base : String
  oa_out : Bool
  oa_dest : String
  oa_fielders : List Nat
  sb_targets : List String
  modifier_selection_active : Bool
  selected_modifier_group : String
  selected_modifiers : List String
  modifiers_live_applied : Bool
  hit_location_active : Bool
  hit_location_positions : String
  hit_location_suffix : String
  hit_location_depth : String
  hit_location_foul : Bool
  advance_runner_active : Bool
  advance_runner_from_base : String
  advance_runner_tokens : List String
  messages : List String
deriving Repr, DecidableEq

/-- `self.event_file.games[self.current_game_index]` (out of range defaults,
covered by hypotheses in the theorems). -/
def currentGame (s : EditorState) : Game :=
  s.games.getD s.current_game_index defaultGame

/-- `current_game.plays[self.current_play_index]`. -/
def currentPlay (s : EditorState) : Play :=
  (currentGame s).plays.getD s.current_play_index defaultPlay

/-- The play at explicit indices (used to state what an operation did). -/
def playAt (s : EditorState) (gi pi : Nat) : Play :=
  (s.games.getD gi defaultGame).plays.getD pi defaultPlay

/-- The game at an explicit index. -/
def gameAt (s : EditorState) (gi : Nat) : Game :=
  s.games.getD gi defaultGame

/-- Python attribute assignment `current_play.<field> = ...`: writes the play
back at the current indices. -/
def update_current_play (s : EditorState) (p : Play) : EditorState :=
  let g := currentGame s
  let g := { g with plays := g.plays.set s.current_play_index p }
  { s with games := s.games.set s.current_game_index g }

/-- editor.py `_starting_count_for_play_index`: inherit the prior play's
count when it is the same batter in the same inning and half (Python
`prior.count or "00"` maps the empty count to `"00"`). -/
def starting_count_for_play_index (game : Game) (play_index : Nat) : String :=
  if play_index = 0 then "00"
  else
    let prior := game.plays.getD (play_index - 1) defaultPlay
    let current := game.plays.getD play_index defaultPlay
    if prior.inning = current.inning ∧ prior.team = current.team ∧
        prior.batter_id = current.batter_id then
      (if prior.count = "" then "00" else prior.count)
    else "00"

/-- editor.py `_save_state_for_undo`: push a snapshot of the current record,
evicting the oldest entry beyond 10. -/
def save_state_for_undo (s : EditorState) : EditorState :=
  let p := currentPlay s
  let hist := s.undo_history ++
    [(s.current_game_index, s.current_play_index, p.pitches, p.play_description)]
  { s with undo_history := if hist.length > 10 then hist.drop 1 else hist }

/-- editor.py `_save_current_state`: persists via the external writer and
prints a confirmation; modelled as the message append only. -/
def save_current_state (s : EditorState) : EditorState :=
  { s with messages := s.messages ++ ["Saved"] }

/-- editor.py `_reset_detail_mode`. -/
def reset_detail_mode (s : EditorState) : EditorState :=
  { s with
    detail_mode_result := ""
    detail_mode_hit_type := ""
    detail_mode_out_type := ""
    detail_mode_fielders := []
    modifier_selection_active := false
    selected_modifier_group := ""
    selected_modifiers := []
    modifiers_live_applied := false
    detail_pickoff_base := ""
    detail_pickoff_fielders := []
    detail_pickoff_error_fielder := none
    detail_pickoff_awaiting_error_fielder := false
    runner_tokens := []
    advance_from_base := ""
    oa_stage := "choose_runner"
    oa_from_base := ""
    oa_out := false
    oa_dest := ""
    oa_fielders := []
    sb_targets := []
    advance_runner_active := false
    advance_runner_from_base := ""
    advance_runner_tokens := [] }

/-- editor.py `_enter_detail_mode`: select a play category, switch to detail
mode and reset all builder sub-state. -/
def enter_detail_mode (s : EditorState) (result : String) : EditorState :=
  { s with
    detail_mode_result := result
    detail_mode_hit_type := ""
    mode := "detail"
    modifier_selection_active := false
    selected_modifier_group := ""
    selected_modifiers := []
    modifiers_live_applied := false
    detail_pickoff_base := ""
    detail_pickoff_fielders := []
    detail_pickoff_error_fielder := none
    detail_pickoff_awaiting_error_fielder := false
    runner_tokens := []
    advance_from_base := ""
    oa_stage := "choose_runner"
    oa_from_base := ""
    oa_out := false
    oa_dest := ""
    oa_fielders := []
    sb_targets := [] }

/-- editor.py `_auto_set_mode_after_navigation`. -/
def auto_set_mode_after_navigation (s : EditorState) (prior_mode : String) :
    EditorState :=
  let p := currentPlay s
  let desired_mode :=
    if p.pitches = "" then "pitch"
    else if p.play_description = "" then "play"
    else prior_mode
  if desired_mode ≠ s.mode then
    let s :=
      if s.mode = "detail" ∧ (desired_mode = "pitch" ∨ desired_mode = "play")
      then reset_detail_mode s else s
    { s with mode := desired_mode }
  else s

/-- editor.py `_next_play`. -/
def next_play (s : EditorState) : EditorState :=
  if s.current_play_index < (currentGame s).plays.length - 1 then
    let prior_mode := s.mode
    let s := { s with current_play_index := s.current_play_index + 1 }
    auto_set_mode_after_navigation s prior_mode
  else s

/-- Python `str.startswith`: list-based (reduces in the kernel, unlike
`String.startsWith`). -/
def py_startswith (s pre : String) : Bool :=
  pre.toList.isPrefixOf s.toList

/-- editor.py `_add_pitch`: the PITCH-mode pitch-event handler, including the
wild-pitch/passed-ball detour, the automatic walk (with auto-advance), and
the automatic strikeout (result prefixing, no advance). -/
def add_pitch (s0 : EditorState) (pitch : Char) : EditorState :=
  let s := save_state_for_undo s0
  if pitch = 'V' ∨ pitch = 'A' then
    let p := currentPlay s
    let p := { p with pitches := p.pitches ++ "." }
    let s := update_current_play s p
    let start_count :=
      starting_count_for_play_index (currentGame s) s.current_play_index
    let p := { p with count := calculate_count p.pitches start_count }
    let s := update_current_play s p
    let code := if pitch = 'V' then "WP" else "PB"
    let s := { s with detail_mode_from_pitch_pb_wp := true,
                      detail_mode_pb_wp_code := code }
    let p := { p with edited := true }
    let s := update_current_play s p
    let s := save_current_state s
    enter_detail_mode s code
  else
    let p := currentPlay s
    let p := { p with pitches := p.pitches ++ pitch.toString }
    let s := update_current_play s p
    let start_count :=
      starting_count_for_play_index (currentGame s) s.current_play_index
    let p := { p with count := calculate_count p.pitches start_count,
                      edited := true }
    let s := update_current_play s p
    let raw := calculate_raw_balls_strikes p.pitches start_count
    if raw.1 ≥ 4 then
      let p := { p with play_description := "W",
                        count := "3" ++ toString (min raw.2 2),
                        edited := true }
      let s := update_current_play s p
      let s := save_current_state s
      next_play s
    else if has_strikeout p.pitches then
      let existing := p.play_description
      let p := { p with
        play_description :=
          if existing ≠ "" ∧ ¬ py_startswith existing "K" then "K" ++ existing
          else "K",
        edited := true }
      let s := update_current_play s p
      save_current_state s
    else
      save_current_state s

/-- editor.py `_ensure_ball_in_play_marker`: append 'X' to the pitch string
only when absent, then recompute the count and mark the record edited. -/
def ensure_ball_in_play_marker (s : EditorState) : EditorState :=
  let p := currentPlay s
  if 'X' ∈ p.pitches.toList then s
  else
    let p := { p with pitches := p.pitches ++ "X" }
    let s := update_current_play s p
    let start_count :=
      starting_count_for_play_index (currentGame s) s.current_play_index
    let p := { p with count := calculate_count p.pitches start_count,
                      edited := true }
    update_current_play s p

/-- editor.py `_mark_ball_in_play_and_switch`. -/
def mark_ball_in_play_and_switch (s : EditorState) : EditorState :=
  let s := save_state_for_undo s
  let s := ensure_ball_in_play_marker s
  let s := save_current_state s
  { s with mode := "play" }

/-- Python attribute assignment on `games[game_index].plays[play_index]`
(the object the undo snapshot points at, which need not be the current
play). -/
def update_play_at (s : EditorState) (game_index play_index : Nat)
    (p : Play) : EditorState :=
  let g := s.games.getD game_index defaultGame
  let g := { g with plays := g.plays.set play_index p }
  { s with games := s.games.set game_index g }

/-- The restore half of editor.py `_undo_last_action`, given the popped
snapshot: restore pitches and result at the snapshotted indices, clear the
edited flag, recompute the count (the starting count is taken from the game
holding the already-restored play, as in the source, where the game object
is mutated in place), report, persist. -/
def undo_restore (s0 : EditorState) (game_index play_index : Nat)
    (pitches play_description : String) : EditorState :=
  let s := { s0 with undo_history := s0.undo_history.dropLast }
  let p := playAt s game_index play_index
  let p := { p with pitches := pitches,
                    play_description := play_description,
                    edited := false }
  let s := update_play_at s game_index play_index p
  let start_count :=
    starting_count_for_play_index (gameAt s game_index) play_index
  let p := { p with count := calculate_count pitches start_count }
  let s := update_play_at s game_index play_index p
  let s := { s with messages := s.messages ++ ["Undo completed"] }
  save_current_state s

/-- editor.py `_undo_last_action`: pop the most recent snapshot (reporting
"Nothing to undo" on an empty log) and restore it. -/
def undo_last_action (s : EditorState) : EditorState :=
  match s.undo_history.getLast? with
  | none => { s with messages := s.messages ++ ["Nothing to undo"] }
  | some (game_index, play_index, pitches, play_description) =>
    undo_restore s game_index play_index pitches play_description

/-- editor.py `_clear_pitches`. -/
def clear_pitches (s : EditorState) : EditorState :=
  let s := save_state_for_undo s
  let p := currentPlay s
  let p := { p with pitches := "" }
  let s := update_current_play s p
  let start_count :=
    starting_count_for_play_index (currentGame s) s.current_play_index
  let p := { p with count := calculate_count p.pitches start_count,
                    edited := true }
  let s := update_current_play s p
  let s := { s with messages := s.messages ++ ["Cleared pitches"] }
  save_current_state s

/-- editor.py `_clear_play_result`. -/
def clear_play_result (s : EditorState) : EditorState :=
  let s := save_state_for_undo s
  let p := currentPlay s
  let p := { p with play_description := "", edited := true }
  let s := update_current_play s p
  let s := reset_detail_mode s
  let s := { s with messages := s.messages ++ ["Cleared play result"] }
  save_current_state s

/-- editor.py `_generate_retrosheet_play_description` (basic, non-detailed
result formatting, with hard-coded defaults when no fielder is supplied). -/
def generate_retrosheet_play_description (result : String)
    (fielding_position : Nat) : String :=
  if result = "S" then
    if fielding_position > 0 then "S" ++ toString fielding_position ++ "/G"
    else "S8/G6"
  else if result = "D" then
    if fielding_position > 0 then "D" ++ toString fielding_position ++ "/L"
    else "D7/L7"
  else if result = "T" then
    if fielding_position > 0 then "T" ++ toString fielding_position ++ "/L"
    else "T8/L8"
  else if result = "HR" then "HR/F7"
  else if result = "K" then "K"
  else if result = "W" then "W"
  else if result = "HP" then "HP"
  else if result = "E" then
    if fielding_position > 0 then "E" ++ toString fielding_position ++ "/G"
    else "E6/G6"
  else if result = "FC" then
    if fielding_position > 0 then "FC" ++ toString fielding_position ++ "/G"
    else "FC6/G6"
  else if result = "DP" then "DP/G6"
  else if result = "TP" then "TP/G6"
  else if result = "SF" then
    if fielding_position > 0 then "SF" ++ toString fielding_position ++ "/F"
    else "SF8/F8"
  else if result = "SH" then
    if fielding_position > 0 then "SH" ++ toString fielding_position ++ "/G"
    else "SH1/G1"
  else if result = "IW" then "IW"
  else if result = "CI" then "CI"
  else if result = "OA" then "OA"
  else if result = "ND" then "ND"
  else if result = "OUT" then
    if fielding_position > 0 then "G" ++ toString fielding_position else "G6"
  else if result = "GDP" then
    if fielding_position > 0 then
      "G" ++ toString fielding_position ++ "/GDP/G" ++ toString fielding_position
    else "G6/GDP/G6"
  else if result = "LDP" then
    if fielding_position > 0 then
      "L" ++ toString fielding_position ++ "/LDP/L" ++ toString fielding_position
    else "L6/LDP/L6"
  else if result = "FO" then
    if fielding_position > 0 then
      "G" ++ toString fielding_position ++ "/FO/G" ++ toString fielding_position
    else "G6/FO/G6"
  else if result = "UO" then
    if fielding_position > 0 then
      "G" ++ toString fielding_position ++ "/UO/G" ++ toString fielding_position
    else "G6/UO/G6"
  else result

/-- editor.py `_set_play_result`. -/
def set_play_result (s : EditorState) (result : String) : EditorState :=
  let s := save_state_for_undo s
  let p := currentPlay s
  let p := { p with
    play_description := generate_retrosheet_play_description result 0,
    edited := true }
  let s := update_current_play s p
  save_current_state s

/-- Python `"".join(str(f) for f in fielders)`. -/
def fielder_string (fielders : List Nat) : String :=
  String.join (fielders.map toString)

/-- The `fielders` parameter of `_generate_detailed_play_description` can be
a single int or a list, mirrored as a sum. -/
inductive FieldersArg where
  | int : Nat → FieldersArg
  | list : List Nat → FieldersArg
deriving Repr, DecidableEq

/-- editor.py `_generate_detailed_play_description`: format a detail-mode
commit from the category, the hit/out subtype and the fielder selection. -/
def generate_detailed_play_description (result : String) (hit_type : String)
    (fielders : FieldersArg) : String :=
  let fielding_position :=
    match fielders with
    | .int n => n
    | .list l => l.headD 0
  let fielders_list :=
    match fielders with
    | .int n => [n]
    | .list l => l
  if result = "S" then
    if fielding_position ≤ 0 then "S/" ++ hit_type
    else "S" ++ toString fielding_position ++ "/" ++ hit_type
  else if result = "D" then
    if fielding_position ≤ 0 then "D/" ++ hit_type
    else "D" ++ toString fielding_position ++ "/" ++ hit_type
  else if result = "T" then
    if fielding_position ≤ 0 then "T/" ++ hit_type
    else "T" ++ toString fielding_position ++ "/" ++ hit_type
  else if result = "HR" then "HR/" ++ hit_type
  else if result = "E" then
    if fielding_position ≤ 0 then "E/" ++ hit_type
    else "E" ++ toString fielding_position ++ "/" ++ hit_type
  else if result = "FC" then
    if fielding_position ≤ 0 then "FC/" ++ hit_type
    else "FC" ++ toString fielding_position ++ "/" ++ hit_type
  else if result = "SF" then
    if fielding_position ≤ 0 then "SF/" ++ hit_type
    else "SF" ++ toString fielding_position ++ "/" ++ hit_type
  else if result = "SH" then
    if fielding_position ≤ 0 then "SH/" ++ hit_type
    else "SH" ++ toString fielding_position ++ "/" ++ hit_type
  else if result = "OUT" ∨ result = "GDP" ∨ result = "LDP" ∨ result = "TP" ∨
      result = "FO" ∨ result = "UO" then
    let out_type := hit_type
    let fs := fielder_string fielders_list
    if out_type = "K" then "K" ++ fs
    else
      let tokens := if fs = "" then [toString fielding_position] else [fs]
      let tokens := if out_type ≠ "" then tokens ++ [out_type] else tokens
      let tokens :=
        if (result = "FO" ∨ result = "UO" ∨ result = "GDP" ∨
            result = "LDP" ∨ result = "TP") ∧ result ≠ out_type then
          tokens ++ [result]
        else tokens
      String.intercalate "/" tokens
  else generate_retrosheet_play_description result fielding_position

/-- Python `existing.find("+")` slice: the tail of `existing` from the first
'+' (inclusive), or `""` when there is none. -/
def plus_suffix (existing : String) : String :=
  String.mk (existing.toList.dropWhile (fun c => c ≠ '+'))

/-- editor.py `_start_modifier_detail_mode`. -/
def start_modifier_detail_mode (s : EditorState) : EditorState :=
  { s with
    modifier_selection_active := true
    selected_modifier_group := ""
    selected_modifiers := []
    modifiers_live_applied := true }

/-- Shared tail of the hit/out commit paths in `_save_detail_mode_result`:
set the generated description (preserving a `+` suffix), optionally append
the ball-in-play marker, mark edited, persist, and open the given auxiliary
builder. -/
def commit_detail_description (s : EditorState) (play_description : String)
    (ensure_marker : Bool) (auto_open_group : String) : EditorState :=
  let s := save_state_for_undo s
  let p := currentPlay s
  let existing := p.play_description
  let suffix := plus_suffix existing
  let p := { p with play_description := play_description ++ suffix }
  let s := update_current_play s p
  let s := if ensure_marker then ensure_ball_in_play_marker s else s
  let p := { (currentPlay s) with edited := true }
  let s := update_current_play s p
  let s := save_current_state s
  let s := start_modifier_detail_mode s
  if auto_open_group = "h" then
    { s with
      selected_modifier_group := "h"
      hit_location_active := true
      hit_location_positions := ""
      hit_location_suffix := ""
      hit_location_depth := ""
      hit_location_foul := false }
  else
    { s with
      selected_modifier_group := "r"
      advance_runner_active := true
      advance_runner_from_base := "" }

/-- editor.py `_save_detail_mode_result`: validate the active builder and,
when complete, materialise its result-code string onto the current record.
Incomplete builders print a hint and return (in the runner-advancement
family this happens after the undo snapshot was already pushed). -/
def save_detail_mode_result (s : EditorState) : EditorState :=
  if s.detail_mode_result = "PO" ∨ s.detail_mode_result = "POCS" ∨
      s.detail_mode_result = "CS" then
    if s.detail_pickoff_base = "" then
      { s with messages := s.messages ++ ["Please select the base"] }
    else if s.detail_mode_result = "PO" ∧
        s.detail_pickoff_error_fielder = none ∧
        s.detail_pickoff_fielders = [] then
      { s with messages := s.messages ++ ["Select fielder sequence or error"] }
    else if (s.detail_mode_result = "POCS" ∨ s.detail_mode_result = "CS") ∧
        s.detail_pickoff_fielders = [] then
      { s with messages := s.messages ++ ["Select fielder sequence"] }
    else
      let desc :=
        if s.detail_mode_result = "PO" then
          match s.detail_pickoff_error_fielder with
          | some f => "PO" ++ s.detail_pickoff_base ++ "(E" ++ toString f ++ ")"
          | none =>
            "PO" ++ s.detail_pickoff_base ++ "(" ++
              fielder_string s.detail_pickoff_fielders ++ ")"
        else
          s.detail_mode_result ++ s.detail_pickoff_base ++ "(" ++
            fielder_string s.detail_pickoff_fielders ++ ")"
      let s := save_state_for_undo s
      let p := { (currentPlay s) with play_description := desc, edited := true }
      let s := update_current_play s p
      let s := save_current_state s
      let s := reset_detail_mode s
      { s with mode := "pitch" }
  else if s.detail_mode_result = "BK" ∨ s.detail_mode_result = "DI" ∨
      s.detail_mode_result = "PB" ∨ s.detail_mode_result = "WP" ∨
      s.detail_mode_result = "SB" ∨ s.detail_mode_result = "OA" then
    let s := save_state_for_undo s
    if s.detail_mode_result = "SB" then
      if s.sb_targets = [] then
        { s with messages := s.messages ++ ["Select at least one stolen base"] }
      else
        let parts := (["2", "3", "H"].filter
          (fun b => b ∈ s.sb_targets)).map (fun b => "SB" ++ b)
        let p := { (currentPlay s) with
          play_description := String.intercalate ";" parts, edited := true }
        let s := update_current_play s p
        let s := save_current_state s
        let s := reset_detail_mode s
        let s := { s with mode := "pitch" }
        { s with detail_mode_from_pitch_pb_wp := false,
                 detail_mode_pb_wp_code := "" }
    else
      if s.runner_tokens = [] then
        { s with messages := s.messages ++ ["Add at least one runner advance"] }
      else
        let p := currentPlay s
        let desc :=
          if (s.detail_mode_result = "PB" ∨ s.detail_mode_result = "WP") ∧
              s.detail_mode_from_pitch_pb_wp then
            p.play_description ++ "+" ++ s.detail_mode_result ++ "." ++
              String.intercalate ";" s.runner_tokens
          else
            s.detail_mode_result ++ "." ++
              String.intercalate ";" s.runner_tokens
        let p := { p with play_description := desc, edited := true }
        let s := update_current_play s p
        let s := save_current_state s
        let s := reset_detail_mode s
        let s := { s with mode := "pitch" }
        { s with detail_mode_from_pitch_pb_wp := false,
                 detail_mode_pb_wp_code := "" }
  else if s.detail_mode_result = "OUT" ∨ s.detail_mode_result = "GDP" ∨
      s.detail_mode_result = "LDP" ∨ s.detail_mode_result = "TP" ∨
      s.detail_mode_result = "FO" ∨ s.detail_mode_result = "UO" then
    if s.detail_mode_out_type ≠ "" ∧ s.detail_mode_fielders ≠ [] then
      let play_description := generate_detailed_play_description
        s.detail_mode_result s.detail_mode_out_type
        (.list s.detail_mode_fielders)
      commit_detail_description s play_description
        (s.detail_mode_out_type ≠ "K") "h"
    else
      { s with messages := s.messages ++ ["Please complete all detail selections"] }
  else if s.detail_mode_result = "SF" ∨ s.detail_mode_result = "SH" then
    if s.detail_mode_hit_type ≠ "" ∧ s.detail_mode_fielders ≠ [] then
      let play_description := generate_detailed_play_description
        s.detail_mode_result s.detail_mode_hit_type
        (.int (s.detail_mode_fielders.headD 0))
      commit_detail_description s play_description true "r"
    else
      { s with messages := s.messages ++ ["Please complete all detail selections"] }
  else
    if s.detail_mode_result ≠ "" ∧ s.detail_mode_hit_type ≠ "" then
      let play_description := generate_detailed_play_description
        s.detail_mode_result s.detail_mode_hit_type
        (.int (s.detail_mode_fielders.headD 0))
      commit_detail_description s play_description true "h"
    else
      { s with messages := s.messages ++ ["Please complete all detail selections"] }

/-- writer.py `_write_game` count selection for a play line: emit the current
computed count only for an original-`"??"` record that was edited and has a
non-empty result; otherwise emit the original count (falling back to the
current count when no original was recorded). -/
def count_to_write (play : Play) : String :=
  if play.original_count = some "??" ∧ play.edited = true ∧
      play.play_description ≠ "" then
    play.count
  else
    match play.original_count with
    | some oc => oc
    | none => play.count

/-- writer.py `_write_game` play line. -/
def play_line (play : Play) : String :=
  "play," ++ toString play.inning ++ "," ++ toString play.team ++ "," ++
    play.batter_id ++ "," ++ count_to_write play ++ "," ++ play.pitches ++
    "," ++ play.play_description

/-- parser.py `_parse_play`: build a `Play` from the comma-split fields of a
`play,` line.  Returns `none` where Python would skip the line (< 6 fields)
or fail (exactly 6 fields raises IndexError; a non-integer inning or team
raises ValueError). -/
def parse_play (parts : List String) : Option Play :=
  match parts with
  | _ :: p1 :: p2 :: p3 :: p4 :: p5 :: p6 :: _ =>
    match p1.toNat?, p2.toNat? with
    | some inning, some team =>
      some { inning := inning, team := team, batter_id := p3,
             count := if p4 = "??" then parser_calculate_count p5 else p4,
             original_count := some p4, pitches := p5,
             play_description := p6, edited := false }
    | _, _ => none
  | _ => none

/-- C8: for a record whose original count is the `"??"` sentinel, the writer
emits the computed count exactly when the record is edited with a non-empty
result, and `"??"` otherwise; hence parsing a `"??"` play line (which yields
`edited = false`) and writing it back reproduces `"??"` verbatim. -/
theorem unknown_count_round_trip (play : Play)
    (h : play.original_count = some "??") :
    count_to_write play =
      (if play.edited = true ∧ play.play_description ≠ "" then play.count
       else "??") ∧
    (∀ (parts : List String) (parsed : Play), parse_play parts = some parsed →
      parsed.original_count = some "??" → count_to_write parsed = "??") ∧
    (∀ parsed : Play, parsed.original_count = some "??" →
      parsed.edited = false → count_to_write parsed = "??" ∧
        play_line parsed =
          "play," ++ toString parsed.inning ++ "," ++ toString parsed.team ++
            "," ++ parsed.batter_id ++ "," ++ "??" ++ "," ++ parsed.pitches ++
            "," ++ parsed.play_description) := by
  refine ⟨?_, ?_, ?_⟩
  · unfold count_to_write
    rw [h]
    by_cases he : play.edited = true ∧ play.play_description ≠ "" <;>
      simp [he]
  · intro parts parsed hp horig
    unfold parse_play at hp
    split at hp
    · split at hp
      · simp only [Option.some.injEq] at hp
        subst hp
        simp at horig
        simp [count_to_write, horig]
      · simp at hp
    · simp at hp
  · intro parsed horig hedit
    have hc : count_to_write parsed = "??" := by
      unfold count_to_write
      rw [horig, hedit]
      simp
    refine ⟨hc, ?_⟩
    unfold play_line
    rw [hc]

lemma getD_set_self {α : Type} (l : List α) (i : Nat) (a d : α)
    (h : i < l.length) : (l.set i a).getD i d = a := by
  simp [List.getD, List.getElem?_set_self, h]

lemma getD_set_ne {α : Type} (l : List α) (i j : Nat) (a d : α) (h : i ≠ j) :
    (l.set i a).getD j d = l.getD j d := by
  simp [List.getD, List.getElem?_set_ne h]

lemma set_oob {α : Type} (l : List α) (i : Nat) (a : α) (h : ¬ i < l.length) :
    l.set i a = l := List.set_eq_of_length_le (Nat.le_of_not_lt h)

lemma currentGame_update (s : EditorState) (p : Play)
    (hg : s.current_game_index < s.games.length) :
    currentGame (update_current_play s p) =
      { currentGame s with
        plays := (currentGame s).plays.set s.current_play_index p } := by
  show (s.games.set s.current_game_index _).getD s.current_game_index
    defaultGame = _
  exact getD_set_self _ _ _ _ hg

lemma currentGame_update_oob (s : EditorState) (p : Play)
    (hg : ¬ s.current_game_index < s.games.length) :
    update_current_play s p = s := by
  simp [update_current_play, set_oob _ _ _ hg]

lemma update_update (s : EditorState) (a b : Play) :
    update_current_play (update_current_play s a) b =
      update_current_play s b := by
  by_cases hg : s.current_game_index < s.games.length
  · unfold update_current_play
    simp only [currentGame, getD_set_self _ _ _ _ hg, List.set_set]
  · rw [currentGame_update_oob s a hg]

lemma playAt_update_self (s : EditorState) (p : Play)
    (hg : s.current_game_index < s.games.length)
    (hp : s.current_play_index < (currentGame s).plays.length) :
    playAt (update_current_play s p) s.current_game_index
      s.current_play_index = p := by
  unfold playAt update_current_play
  rw [getD_set_self _ _ _ _ hg]
  exact getD_set_self _ _ _ _ (by simpa using hp)

lemma playAt_update_ne (s : EditorState) (p : Play) (j : Nat)
    (hj : j ≠ s.current_play_index) :
    playAt (update_current_play s p) s.current_game_index j =
      playAt s s.current_game_index j := by
  by_cases hg : s.current_game_index < s.games.length
  · unfold playAt update_current_play
    rw [getD_set_self _ _ _ _ hg]
    exact getD_set_ne _ _ _ _ _ (fun h => hj h.symm)
  · rw [currentGame_update_oob s p hg]

lemma games_length_update (s : EditorState) (p : Play) :
    (update_current_play s p).games.length = s.games.length := by
  simp [update_current_play]

lemma plays_length_update (s : EditorState) (p : Play) (gi : Nat) :
    (gameAt (update_current_play s p) gi).plays.length =
      (gameAt s gi).plays.length := by
  by_cases hg : s.current_game_index < s.games.length
  · unfold gameAt update_current_play
    by_cases h : gi = s.current_game_index
    · subst h
      rw [getD_set_self _ _ _ _ hg]
      simp [currentGame, gameAt]
    · rw [getD_set_ne _ _ _ _ _ (fun h2 => h h2.symm)]
  · rw [currentGame_update_oob s p hg]

lemma starting_count_set_self (g : Game) (pi : Nat) (a : Play)
    (hin : a.inning = (g.plays.getD pi defaultPlay).inning)
    (ht : a.team = (g.plays.getD pi defaultPlay).team)
    (hb : a.batter_id = (g.plays.getD pi defaultPlay).batter_id) :
    starting_count_for_play_index { g with plays := g.plays.set pi a } pi =
      starting_count_for_play_index g pi := by
  by_cases hlen : pi < g.plays.length
  · unfold starting_count_for_play_index
    by_cases h0 : pi = 0
    · simp [h0]
    · simp only [h0, if_false]
      rw [getD_set_ne _ _ _ _ _ (by omega), getD_set_self _ _ _ _ hlen,
        hin, ht, hb]
  · rw [set_oob _ _ _ hlen]

lemma starting_count_currentGame_update (s : EditorState) (p : Play)
    (hg : s.current_game_index < s.games.length)
    (hin : p.inning = (currentPlay s).inning)
    (ht : p.team = (currentPlay s).team)
    (hb : p.batter_id = (currentPlay s).batter_id) :
    starting_count_for_play_index (currentGame (update_current_play s p))
        s.current_play_index =
      starting_count_for_play_index (currentGame s) s.current_play_index := by
  rw [currentGame_update s p hg]
  exact starting_count_set_self _ _ _ hin ht hb

@[simp] lemma currentGame_save_undo (s : EditorState) :
    currentGame (save_state_for_undo s) = currentGame s := rfl

@[simp] lemma currentPlay_save_undo (s : EditorState) :
    currentPlay (save_state_for_undo s) = currentPlay s := rfl

@[simp] lemma currentGame_save_state (s : EditorState) :
    currentGame (save_current_state s) = currentGame s := rfl

@[simp] lemma currentPlay_save_state (s : EditorState) :
    currentPlay (save_current_state s) = currentPlay s := rfl

@[simp] lemma currentPlay_reset_detail (s : EditorState) :
    currentPlay (reset_detail_mode s) = currentPlay s := rfl

@[simp] lemma currentPlay_start_modifier (s : EditorState) :
    currentPlay (start_modifier_detail_mode s) = currentPlay s := rfl

@[simp] lemma gi_save_undo (s : EditorState) :
    (save_state_for_undo s).current_game_index = s.current_game_index := rfl

@[simp] lemma pi_save_undo (s : EditorState) :
    (save_state_for_undo s).current_play_index = s.current_play_index := rfl

@[simp] lemma games_save_undo (s : EditorState) :
    (save_state_for_undo s).games = s.games := rfl

@[simp] lemma games_save_state (s : EditorState) :
    (save_current_state s).games = s.games := rfl

@[simp] lemma games_reset_detail (s : EditorState) :
    (reset_detail_mode s).games = s.games := rfl

@[simp] lemma games_enter_detail (s : EditorState) (r : String) :
    (enter_detail_mode s r).games = s.games := rfl

@[simp] lemma games_start_modifier (s : EditorState) :
    (start_modifier_detail_mode s).games = s.games := rfl

@[simp] lemma games_auto_set_mode (s : EditorState) (m : String) :
    (auto_set_mode_after_navigation s m).games = s.games := by
  unfold auto_set_mode_after_navigation
  dsimp only
  split_ifs <;> rfl

@[simp] lemma games_next_play (s : EditorState) :
    (next_play s).games = s.games := by
  unfold next_play
  split
  · rw [games_auto_set_mode]
  · rfl

@[simp] lemma gi_update (s : EditorState) (p : Play) :
    (update_current_play s p).current_game_index = s.current_game_index := rfl

@[simp] lemma pi_update (s : EditorState) (p : Play) :
    (update_current_play s p).current_play_index = s.current_play_index := rfl

@[simp] lemma gi_save_state (s : EditorState) :
    (save_current_state s).current_game_index = s.current_game_index := rfl

@[simp] lemma pi_save_state (s : EditorState) :
    (save_current_state s).current_play_index = s.current_play_index := rfl

@[simp] lemma gi_reset_detail (s : EditorState) :
    (reset_detail_mode s).current_game_index = s.current_game_index := rfl

@[simp] lemma pi_reset_detail (s : EditorState) :
    (reset_detail_mode s).current_play_index = s.current_play_index := rfl

@[simp] lemma gi_enter_detail (s : EditorState) (r : String) :
    (enter_detail_mode s r).current_game_index = s.current_game_index := rfl

@[simp] lemma pi_enter_detail (s : EditorState) (r : String) :
    (enter_detail_mode s r).current_play_index = s.current_play_index := rfl

@[simp] lemma gi_start_modifier (s : EditorState) :
    (start_modifier_detail_mode s).current_game_index =
      s.current_game_index := rfl

@[simp] lemma pi_start_modifier (s : EditorState) :
    (start_modifier_detail_mode s).current_play_index =
      s.current_play_index := rfl

@[simp] lemma gi_auto_set_mode (s : EditorState) (m : String) :
    (auto_set_mode_after_navigation s m).current_game_index =
      s.current_game_index := by
  unfold auto_set_mode_after_navigation
  dsimp only
  split_ifs <;> rfl

@[simp] lemma pi_auto_set_mode (s : EditorState) (m : String) :
    (auto_set_mode_after_navigation s m).current_play_index =
      s.current_play_index := by
  unfold auto_set_mode_after_navigation
  dsimp only
  split_ifs <;> rfl

@[simp] lemma gi_next_play (s : EditorState) :
    (next_play s).current_game_index = s.current_game_index := by
  unfold next_play
  split
  · rw [gi_auto_set_mode]
  · rfl

@[simp] lemma undo_history_update (s : EditorState) (p : Play) :
    (update_current_play s p).undo_history = s.undo_history := rfl

@[simp] lemma undo_history_save_state (s : EditorState) :
    (save_current_state s).undo_history = s.undo_history := rfl

@[simp] lemma undo_history_reset_detail (s : EditorState) :
    (reset_detail_mode s).undo_history = s.undo_history := rfl

@[simp] lemma undo_history_enter_detail (s : EditorState) (r : String) :
    (enter_detail_mode s r).undo_history = s.undo_history := rfl

@[simp] lemma undo_history_start_modifier (s : EditorState) :
    (start_modifier_detail_mode s).undo_history = s.undo_history := rfl

@[simp] lemma undo_history_auto_set_mode (s : EditorState) (m : String) :
    (auto_set_mode_after_navigation s m).undo_history = s.undo_history := by
  unfold auto_set_mode_after_navigation
  dsimp only
  split_ifs <;> rfl

@[simp] lemma undo_history_next_play (s : EditorState) :
    (next_play s).undo_history = s.undo_history := by
  unfold next_play
  split
  · rw [undo_history_auto_set_mode]
  · rfl

lemma currentPlay_update (s : EditorState) (p : Play)
    (hg : s.current_game_index < s.games.length)
    (hp : s.current_play_index < (currentGame s).plays.length) :
    currentPlay (update_current_play s p) = p := by
  have := playAt_update_self s p hg hp
  simpa [playAt, currentPlay, currentGame, gameAt] using this

lemma ensure_marker_mem (s : EditorState)
    (h : 'X' ∈ (currentPlay s).pitches.toList) :
    ensure_ball_in_play_marker s = s := by
  unfold ensure_ball_in_play_marker
  dsimp only
  rw [if_pos h]

lemma ensure_marker_not_mem (s : EditorState)
    (hg : s.current_game_index < s.games.length)
    (h : ¬ 'X' ∈ (currentPlay s).pitches.toList) :
    ensure_ball_in_play_marker s =
      update_current_play s
        { currentPlay s with
          pitches := (currentPlay s).pitches ++ "X"
          count := calculate_count ((currentPlay s).pitches ++ "X")
            (starting_count_for_play_index (currentGame s)
              s.current_play_index)
          edited := true } := by
  unfold ensure_ball_in_play_marker
  dsimp only
  rw [if_neg h, update_update]
  simp only [pi_update]
  rw [starting_count_currentGame_update s
    { currentPlay s with pitches := (currentPlay s).pitches ++ "X" }
    hg rfl rfl rfl]

lemma count_X_append (l : List Char) : (l ++ ['X']).count 'X' = l.count 'X' + 1 := by
  simp

@[simp] lemma gi_ensure (s : EditorState) :
    (ensure_ball_in_play_marker s).current_game_index =
      s.current_game_index := by
  unfold ensure_ball_in_play_marker
  dsimp only
  split_ifs <;> rfl

@[simp] lemma pi_ensure (s : EditorState) :
    (ensure_ball_in_play_marker s).current_play_index =
      s.current_play_index := by
  unfold ensure_ball_in_play_marker
  dsimp only
  split_ifs <;> rfl

@[simp] lemma undo_history_ensure (s : EditorState) :
    (ensure_ball_in_play_marker s).undo_history = s.undo_history := by
  unfold ensure_ball_in_play_marker
  dsimp only
  split_ifs <;> rfl

lemma games_length_ensure (s : EditorState) :
    (ensure_ball_in_play_marker s).games.length = s.games.length := by
  unfold ensure_ball_in_play_marker
  dsimp only
  split_ifs <;> simp [update_current_play]

lemma plays_length_update_current (s : EditorState) (p : Play) :
    (currentGame (update_current_play s p)).plays.length =
      (currentGame s).plays.length := by
  have h := plays_length_update s p s.current_game_index
  simpa [gameAt, currentGame] using h

lemma plays_length_ensure (s : EditorState) :
    (currentGame (ensure_ball_in_play_marker s)).plays.length =
      (currentGame s).plays.length := by
  by_cases h : 'X' ∈ (currentPlay s).pitches.toList
  · rw [ensure_marker_mem s h]
  · by_cases hg : s.current_game_index < s.games.length
    · rw [ensure_marker_not_mem s hg h]
      have := plays_length_update_current s
        { currentPlay s with
          pitches := (currentPlay s).pitches ++ "X"
          count := calculate_count ((currentPlay s).pitches ++ "X")
            (starting_count_for_play_index (currentGame s)
              s.current_play_index)
          edited := true }
      simpa [currentGame] using this
    · unfold ensure_ball_in_play_marker
      dsimp only
      rw [if_neg h, currentGame_update_oob _ _ hg, currentGame_update_oob _ _
        (by simpa [update_current_play, set_oob _ _ _ hg] using hg)]


lemma commit_detail_after (s3 : EditorState) (group : String)
    (hg3 : s3.current_game_index < s3.games.length)
    (hp3 : s3.current_play_index < (currentGame s3).plays.length) :
    currentPlay
        (let s4 := update_current_play s3 { currentPlay s3 with edited := true }
         let s5 := start_modifier_detail_mode (save_current_state s4)
         if group = "h" then
           { s5 with
             selected_modifier_group := "h"
             hit_location_active := true
             hit_location_positions := ""
             hit_location_suffix := ""
             hit_location_depth := ""
             hit_location_foul := false }
         else
           { s5 with
             selected_modifier_group := "r"
             advance_runner_active := true
             advance_runner_from_base := "" }) =
      { currentPlay s3 with edited := true } ∧
    (let s4 := update_current_play s3 { currentPlay s3 with edited := true }
     let s5 := start_modifier_detail_mode (save_current_state s4)
     if group = "h" then
       { s5 with
         selected_modifier_group := "h"
         hit_location_active := true
         hit_location_positions := ""
         hit_location_suffix := ""
         hit_location_depth := ""
         hit_location_foul := false }
     else
       { s5 with
         selected_modifier_group := "r"
         advance_runner_active := true
         advance_runner_from_base := "" }).current_game_index =
      s3.current_game_index ∧
    (let s4 := update_current_play s3 { currentPlay s3 with edited := true }
     let s5 := start_modifier_detail_mode (save_current_state s4)
     if group = "h" then
       { s5 with
         selected_modifier_group := "h"
         hit_location_active := true
         hit_location_positions := ""
         hit_location_suffix := ""
         hit_location_depth := ""
         hit_location_foul := false }
     else
       { s5 with
         selected_modifier_group := "r"
         advance_runner_active := true
         advance_runner_from_base := "" }).current_play_index =
      s3.current_play_index ∧
    (let s4 := update_current_play s3 { currentPlay s3 with edited := true }
     let s5 := start_modifier_detail_mode (save_current_state s4)
     if group = "h" then
       { s5 with
         selected_modifier_group := "h"
         hit_location_active := true
         hit_location_positions := ""
         hit_location_suffix := ""
         hit_location_depth := ""
         hit_location_foul := false }
     else
       { s5 with
         selected_modifier_group := "r"
         advance_runner_active := true
         advance_runner_from_base := "" }).mode = s3.mode := by
  dsimp only
  by_cases hgrp : group = "h"
  · rw [if_pos hgrp]
    exact ⟨currentPlay_update s3 _ hg3 hp3, rfl, rfl, rfl⟩
  · rw [if_neg hgrp]
    exact ⟨currentPlay_update s3 _ hg3 hp3, rfl, rfl, rfl⟩

lemma commit_detail_spec (s : EditorState) (desc : String) (marker : Bool)
    (group : String)
    (hg : s.current_game_index < s.games.length)
    (hp : s.current_play_index < (currentGame s).plays.length) :
    (currentPlay (commit_detail_description s desc marker group)).play_description
        = desc ++ plus_suffix (currentPlay s).play_description ∧
    ((currentPlay (commit_detail_description s desc marker group)).pitches =
        (currentPlay s).pitches ∨
      (¬ 'X' ∈ (currentPlay s).pitches.toList ∧
        (currentPlay (commit_detail_description s desc marker group)).pitches =
          (currentPlay s).pitches ++ "X")) ∧
    (currentPlay (commit_detail_description s desc marker group)).edited =
      true ∧
    (commit_detail_description s desc marker group).current_game_index =
      s.current_game_index ∧
    (commit_detail_description s desc marker group).current_play_index =
      s.current_play_index ∧
    (commit_detail_description s desc marker group).mode = s.mode := by
  have hcp2 : currentPlay (update_current_play (save_state_for_undo s)
      { currentPlay s with
        play_description :=
          desc ++ plus_suffix (currentPlay s).play_description }) =
      { currentPlay s with
        play_description :=
          desc ++ plus_suffix (currentPlay s).play_description } :=
    currentPlay_update _ _ hg hp
  have hg2 : (update_current_play (save_state_for_undo s)
      { currentPlay s with
        play_description :=
          desc ++ plus_suffix (currentPlay s).play_description
      }).current_game_index <
      (update_current_play (save_state_for_undo s)
      { currentPlay s with
        play_description :=
          desc ++ plus_suffix (currentPlay s).play_description
      }).games.length := by
    simpa [games_length_update] using hg
  have hp2 : (update_current_play (save_state_for_undo s)
      { currentPlay s with
        play_description :=
          desc ++ plus_suffix (currentPlay s).play_description
      }).current_play_index <
      (currentGame (update_current_play (save_state_for_undo s)
      { currentPlay s with
        play_description :=
          desc ++ plus_suffix (currentPlay s).play_description
      })).plays.length := by
    simpa [plays_length_update_current] using hp
  cases marker with
  | false =>
    have heq : commit_detail_description s desc false group =
        (let s3 := update_current_play (save_state_for_undo s)
          { currentPlay s with
            play_description :=
              desc ++ plus_suffix (currentPlay s).play_description }
         let s4 := update_current_play s3
           { currentPlay s3 with edited := true }
         let s5 := start_modifier_detail_mode (save_current_state s4)
         if group = "h" then
           { s5 with
             selected_modifier_group := "h"
             hit_location_active := true
             hit_location_positions := ""
             hit_location_suffix := ""
             hit_location_depth := ""
             hit_location_foul := false }
         else
           { s5 with
             selected_modifier_group := "r"
             advance_runner_active := true
             advance_runner_from_base := "" }) := rfl
    rw [heq]
    have hafter := commit_detail_after (update_current_play
      (save_state_for_undo s)
      { currentPlay s with
        play_description :=
          desc ++ plus_suffix (currentPlay s).play_description }) group hg2 hp2
    rw [hafter.1, hafter.2.1, hafter.2.2.1, hafter.2.2.2, hcp2]
    exact ⟨rfl, Or.inl rfl, rfl, rfl, rfl, rfl⟩
  | true =>
    have heq : commit_detail_description s desc true group =
        (let s3 := ensure_ball_in_play_marker
          (update_current_play (save_state_for_undo s)
            { currentPlay s with
              play_description :=
                desc ++ plus_suffix (currentPlay s).play_description })
         let s4 := update_current_play s3
           { currentPlay s3 with edited := true }
         let s5 := start_modifier_detail_mode (save_current_state s4)
         if group = "h" then
           { s5 with
             selected_modifier_group := "h"
             hit_location_active := true
             hit_location_positions := ""
             hit_location_suffix := ""
             hit_location_depth := ""
             hit_location_foul := false }
         else
           { s5 with
             selected_modifier_group := "r"
             advance_runner_active := true
             advance_runner_from_base := "" }) := rfl
    rw [heq]
    have hg3 : (ensure_ball_in_play_marker (update_current_play
        (save_state_for_undo s)
        { currentPlay s with
          play_description :=
            desc ++ plus_suffix (currentPlay s).play_description
        })).current_game_index <
        (ensure_ball_in_play_marker (update_current_play
        (save_state_for_undo s)
        { currentPlay s with
          play_description :=
            desc ++ plus_suffix (currentPlay s).play_description
        })).games.length := by
      rw [gi_ensure, games_length_ensure]
      exact hg2
    have hp3 : (ensure_ball_in_play_marker (update_current_play
        (save_state_for_undo s)
        { currentPlay s with
          play_description :=
            desc ++ plus_suffix (currentPlay s).play_description
        })).current_play_index <
        (currentGame (ensure_ball_in_play_marker (update_current_play
        (save_state_for_undo s)
        { currentPlay s with
          play_description :=
            desc ++ plus_suffix (currentPlay s).play_description
        }))).plays.length := by
      rw [pi_ensure, plays_length_ensure]
      exact hp2
    have hafter := commit_detail_after (ensure_ball_in_play_marker
      (update_current_play (save_state_for_undo s)
      { currentPlay s with
        play_description :=
          desc ++ plus_suffix (currentPlay s).play_description })) group
      hg3 hp3
    rw [hafter.1, hafter.2.1, hafter.2.2.1, hafter.2.2.2]
    rw [gi_ensure, pi_ensure]
    by_cases hmem : 'X' ∈ (currentPlay (update_current_play
        (save_state_for_undo s)
        { currentPlay s with
          play_description :=
            desc ++ plus_suffix (currentPlay s).play_description
        })).pitches.toList
    · rw [ensure_marker_mem _ hmem, hcp2]
      exact ⟨rfl, Or.inl rfl, rfl, rfl, rfl, rfl⟩
    · rw [ensure_marker_not_mem _ hg2 hmem]
      rw [currentPlay_update _ _ hg2 hp2, hcp2]
      refine ⟨rfl, ?_, rfl, rfl, rfl, rfl⟩
      refine Or.inr ⟨?_, rfl⟩
      rw [hcp2] at hmem
      exact hmem

@[simp] lemma detail_result_save_undo (s : EditorState) :
    (save_state_for_undo s).detail_mode_result = s.detail_mode_result := rfl

@[simp] lemma sb_targets_save_undo (s : EditorState) :
    (save_state_for_undo s).sb_targets = s.sb_targets := rfl

@[simp] lemma runner_tokens_save_undo (s : EditorState) :
    (save_state_for_undo s).runner_tokens = s.runner_tokens := rfl

@[simp] lemma pbwp_flag_save_undo (s : EditorState) :
    (save_state_for_undo s).detail_mode_from_pitch_pb_wp =
      s.detail_mode_from_pitch_pb_wp := rfl

@[simp] lemma mode_save_undo (s : EditorState) :
    (save_state_for_undo s).mode = s.mode := rfl

lemma save_detail_out_eq (t : EditorState)
    (hres : t.detail_mode_result = "OUT" ∨ t.detail_mode_result = "GDP" ∨
      t.detail_mode_result = "LDP" ∨ t.detail_mode_result = "TP" ∨
      t.detail_mode_result = "FO" ∨ t.detail_mode_result = "UO")
    (hot : t.detail_mode_out_type ≠ "")
    (hf : t.detail_mode_fielders ≠ []) :
    save_detail_mode_result t =
      commit_detail_description t
        (generate_detailed_play_description t.detail_mode_result
          t.detail_mode_out_type (.list t.detail_mode_fielders))
        (decide (t.detail_mode_out_type ≠ "K")) "h" := by
  unfold save_detail_mode_result
  rcases hres with h | h | h | h | h | h <;>
    rw [h] <;>
    rw [if_neg (by decide), if_neg (by decide), if_pos (by decide),
      if_pos ⟨hot, hf⟩]

lemma save_detail_sac_eq (t : EditorState)
    (hres : t.detail_mode_result = "SF" ∨ t.detail_mode_result = "SH")
    (hht : t.detail_mode_hit_type ≠ "")
    (hf : t.detail_mode_fielders ≠ []) :
    save_detail_mode_result t =
      commit_detail_description t
        (generate_detailed_play_description t.detail_mode_result
          t.detail_mode_hit_type (.int (t.detail_mode_fielders.headD 0)))
        true "r" := by
  unfold save_detail_mode_result
  rcases hres with h | h <;>
    rw [h] <;>
    rw [if_neg (by decide), if_neg (by decide), if_neg (by decide),
      if_pos (by decide), if_pos ⟨hht, hf⟩]

lemma save_detail_hit_eq (t : EditorState)
    (hres : ¬ (t.detail_mode_result = "PO" ∨ t.detail_mode_result = "POCS" ∨
      t.detail_mode_result = "CS"))
    (hres2 : ¬ (t.detail_mode_result = "BK" ∨ t.detail_mode_result = "DI" ∨
      t.detail_mode_result = "PB" ∨ t.detail_mode_result = "WP" ∨
      t.detail_mode_result = "SB" ∨ t.detail_mode_result = "OA"))
    (hres3 : ¬ (t.detail_mode_result = "OUT" ∨ t.detail_mode_result = "GDP" ∨
      t.detail_mode_result = "LDP" ∨ t.detail_mode_result = "TP" ∨
      t.detail_mode_result = "FO" ∨ t.detail_mode_result = "UO"))
    (hres4 : ¬ (t.detail_mode_result = "SF" ∨ t.detail_mode_result = "SH"))
    (hr : t.detail_mode_result ≠ "")
    (hht : t.detail_mode_hit_type ≠ "") :
    save_detail_mode_result t =
      commit_detail_description t
        (generate_detailed_play_description t.detail_mode_result
          t.detail_mode_hit_type (.int (t.detail_mode_fielders.headD 0)))
        true "h" := by
  unfold save_detail_mode_result
  rw [if_neg hres, if_neg hres2, if_neg hres3, if_neg hres4,
    if_pos ⟨hr, hht⟩]

lemma save_detail_pbwp_from_pitch (t : EditorState)
    (hres : t.detail_mode_result = "PB" ∨ t.detail_mode_result = "WP")
    (htok : t.runner_tokens ≠ [])
    (hflag : t.detail_mode_from_pitch_pb_wp = true) :
    save_detail_mode_result t =
      (let s1 := save_state_for_undo t
       let p := { currentPlay t with
         play_description := (currentPlay t).play_description ++ "+" ++
           t.detail_mode_result ++ "." ++
           String.intercalate ";" t.runner_tokens
         edited := true }
       let s2 := update_current_play s1 p
       let s3 := reset_detail_mode (save_current_state s2)
       let s4 := { s3 with mode := "pitch" }
       { s4 with detail_mode_from_pitch_pb_wp := false,
                 detail_mode_pb_wp_code := "" }) := by
  unfold save_detail_mode_result
  dsimp only
  simp only [detail_result_save_undo, runner_tokens_save_undo,
    pbwp_flag_save_undo, currentPlay_save_undo]
  rcases hres with h | h <;>
    rw [h] <;>
    rw [if_neg (by decide), if_pos (by decide), if_neg (by decide),
      if_neg htok, if_pos ⟨by simp, hflag⟩]

@[simp] lemma currentPlay_enter_detail (s : EditorState) (r : String) :
    currentPlay (enter_detail_mode s r) = currentPlay s := rfl

lemma update_flags_comm (s : EditorState) (p : Play) (b : Bool) (c : String) :
    update_current_play
        { s with detail_mode_from_pitch_pb_wp := b,
                 detail_mode_pb_wp_code := c } p =
      { update_current_play s p with
        detail_mode_from_pitch_pb_wp := b, detail_mode_pb_wp_code := c } := rfl

lemma currentPlay_flags (s : EditorState) (b : Bool) (c : String) :
    currentPlay
        { s with detail_mode_from_pitch_pb_wp := b,
                 detail_mode_pb_wp_code := c } = currentPlay s := rfl

lemma playAt_eq_of_games (s t : EditorState) (gi pi : Nat)
    (h : s.games = t.games) : playAt s gi pi = playAt t gi pi := by
  unfold playAt
  rw [h]

lemma currentPlay_eq_playAt (s : EditorState) :
    currentPlay s = playAt s s.current_game_index s.current_play_index := rfl

lemma next_play_pi (s : EditorState) :
    (next_play s).current_play_index =
      if s.current_play_index < (currentGame s).plays.length - 1 then
        s.current_play_index + 1
      else s.current_play_index := by
  unfold next_play
  split_ifs with h
  · simp
  · rfl

lemma next_play_mode_walk (s : EditorState)
    (h : s.current_play_index < (currentGame s).plays.length - 1) :
    (next_play s).mode = (auto_set_mode_after_navigation
      { s with current_play_index := s.current_play_index + 1 } s.mode).mode := by
  unfold next_play
  rw [if_pos h]

@[simp] lemma mode_enter_detail (s : EditorState) (r : String) :
    (enter_detail_mode s r).mode = "detail" := rfl

@[simp] lemma detail_result_enter_detail (s : EditorState) (r : String) :
    (enter_detail_mode s r).detail_mode_result = r := rfl

@[simp] lemma runner_tokens_enter_detail (s : EditorState) (r : String) :
    (enter_detail_mode s r).runner_tokens = [] := rfl

@[simp] lemma pbwp_flag_enter_detail (s : EditorState) (r : String) :
    (enter_detail_mode s r).detail_mode_from_pitch_pb_wp =
      s.detail_mode_from_pitch_pb_wp := rfl

@[simp] lemma pbwp_code_enter_detail (s : EditorState) (r : String) :
    (enter_detail_mode s r).detail_mode_pb_wp_code =
      s.detail_mode_pb_wp_code := rfl

@[simp] lemma mode_save_state (s : EditorState) :
    (save_current_state s).mode = s.mode := rfl

@[simp] lemma mode_update (s : EditorState) (p : Play) :
    (update_current_play s p).mode = s.mode := rfl

lemma currentPlay_set_mode (s : EditorState) (v : String) :
    currentPlay { s with mode := v } = currentPlay s := rfl

/-- C5: a wild-pitch ('V') or passed-ball ('A') pitch-event key appends only
the separator '.' to the pitch sequence (never the V/A code itself), leaves
the result untouched, and immediately enters detail mode with the
runner-advance builder pre-seeded for WP/PB (empty token list, pitch-trigger
flag set); committing that builder appends the advancement tokens to the
existing result code as a "+WP.<tokens>"/"+PB.<tokens>" suffix joined by
';', never replacing the existing result. -/
theorem wild_pitch_passed_ball_flow (s : EditorState) (pitch : Char)
    (hg : s.current_game_index < s.games.length)
    (hp : s.current_play_index < (currentGame s).plays.length)
    (hVA : pitch = 'V' ∨ pitch = 'A') :
    (currentPlay (add_pitch s pitch)).pitches =
      (currentPlay s).pitches ++ "." ∧
    (currentPlay (add_pitch s pitch)).play_description =
      (currentPlay s).play_description ∧
    (add_pitch s pitch).mode = "detail" ∧
    (add_pitch s pitch).detail_mode_result =
      (if pitch = 'V' then "WP" else "PB") ∧
    (add_pitch s pitch).detail_mode_from_pitch_pb_wp = true ∧
    (add_pitch s pitch).detail_mode_pb_wp_code =
      (if pitch = 'V' then "WP" else "PB") ∧
    (add_pitch s pitch).runner_tokens = [] ∧
    (∀ t : EditorState,
      t.current_game_index < t.games.length →
      t.current_play_index < (currentGame t).plays.length →
      (t.detail_mode_result = "PB" ∨ t.detail_mode_result = "WP") →
      t.runner_tokens ≠ [] →
      t.detail_mode_from_pitch_pb_wp = true →
      (currentPlay (save_detail_mode_result t)).play_description =
        (currentPlay t).play_description ++ "+" ++ t.detail_mode_result ++
          "." ++ String.intercalate ";" t.runner_tokens ∧
      (save_detail_mode_result t).mode = "pitch") := by
  have hb : ∀ t : EditorState,
      t.current_game_index < t.games.length →
      t.current_play_index < (currentGame t).plays.length →
      (t.detail_mode_result = "PB" ∨ t.detail_mode_result = "WP") →
      t.runner_tokens ≠ [] →
      t.detail_mode_from_pitch_pb_wp = true →
      (currentPlay (save_detail_mode_result t)).play_description =
        (currentPlay t).play_description ++ "+" ++ t.detail_mode_result ++
          "." ++ String.intercalate ";" t.runner_tokens ∧
      (save_detail_mode_result t).mode = "pitch" := by
    intro t hgt hpt hres htok hflag
    rw [save_detail_pbwp_from_pitch t hres htok hflag]
    dsimp only
    exact ⟨(congrArg Play.play_description
      (currentPlay_update (save_state_for_undo t) _ hgt hpt)).trans rfl, rfl⟩
  rcases hVA with h | h <;> subst h
  · unfold add_pitch
    dsimp only
    rw [if_pos (Or.inl rfl)]
    simp only [reduceIte]
    rw [update_flags_comm, update_update, update_update]
    exact ⟨(congrArg Play.pitches
        (currentPlay_update (save_state_for_undo s) _ hg hp)).trans rfl,
      (congrArg Play.play_description
        (currentPlay_update (save_state_for_undo s) _ hg hp)).trans rfl,
      rfl, rfl, rfl, rfl, rfl, hb⟩
  · unfold add_pitch
    dsimp only
    rw [if_pos (Or.inr rfl)]
    try simp only [reduceIte]
    rw [update_flags_comm, update_update, update_update]
    exact ⟨(congrArg Play.pitches
        (currentPlay_update (save_state_for_undo s) _ hg hp)).trans rfl,
      (congrArg Play.play_description
        (currentPlay_update (save_state_for_undo s) _ hg hp)).trans rfl,
      rfl, rfl, rfl, rfl, rfl, hb⟩

lemma add_pitch_normal_eq (s : EditorState) (pitch : Char)
    (hg : s.current_game_index < s.games.length)
    (hVA : ¬ (pitch = 'V' ∨ pitch = 'A')) :
    add_pitch s pitch =
      (let start := starting_count_for_play_index (currentGame s)
        s.current_play_index
       let newP := (currentPlay s).pitches ++ pitch.toString
       let raw := calculate_raw_balls_strikes newP start
       let p2 : Play :=
         { currentPlay s with
           pitches := newP
           count := calculate_count newP start
           edited := true }
       if raw.1 ≥ 4 then
         next_play (save_current_state
           (update_current_play (save_state_for_undo s)
             { p2 with
               play_description := "W"
               count := "3" ++ toString (min raw.2 2) }))
       else if has_strikeout newP then
         save_current_state (update_current_play (save_state_for_undo s)
           { p2 with
             play_description :=
               if (currentPlay s).play_description ≠ "" ∧
                   ¬ py_startswith (currentPlay s).play_description "K" then
                 "K" ++ (currentPlay s).play_description
               else "K" })
       else save_current_state
         (update_current_play (save_state_for_undo s) p2)) := by
  have hstart : starting_count_for_play_index
      (currentGame (update_current_play (save_state_for_undo s)
        { currentPlay s with
          pitches := (currentPlay s).pitches ++ pitch.toString }))
      s.current_play_index =
      starting_count_for_play_index (currentGame s) s.current_play_index := by
    have h := starting_count_currentGame_update (save_state_for_undo s)
      { currentPlay s with
        pitches := (currentPlay s).pitches ++ pitch.toString } hg rfl rfl rfl
    simpa using h
  unfold add_pitch
  dsimp only
  rw [if_neg hVA]
  simp only [pi_update, pi_save_undo, currentPlay_save_undo]
  rw [hstart]
  simp only [update_update]

/-- `playAt` seen as a function of the games list only. -/
def playAtGames (games : List Game) (gi pi : Nat) : Play :=
  (games.getD gi defaultGame).plays.getD pi defaultPlay

lemma playAt_eq (s : EditorState) (gi pi : Nat) :
    playAt s gi pi = playAtGames s.games gi pi := rfl

lemma playAtGames_set_ne (s : EditorState) (p : Play) (j : Nat)
    (hj : j ≠ s.current_play_index) :
    playAtGames (update_current_play s p).games s.current_game_index j =
      playAtGames s.games s.current_game_index j :=
  playAt_update_ne s p j hj

lemma add_pitch_other_play (t : EditorState) (p' : Char) (j : Nat)
    (hj : j ≠ t.current_play_index) :
    playAt (add_pitch t p') t.current_game_index j =
      playAt t t.current_game_index j := by
  unfold add_pitch
  dsimp only
  split_ifs with h1 h2 h3 <;>
    simp only [playAt_eq, update_flags_comm, update_update,
      games_enter_detail, games_save_state, games_next_play] <;>
    exact playAtGames_set_ne (save_state_for_undo t) _ j hj

/-- C3: when a non-V/A pitch brings the raw ball total (inherited starting
count plus pitch sequence) to 4 or more, `_add_pitch` sets the record's
result to the walk production "W", sets the display count to 3 balls with
the strikes digit capped at 2, and auto-advances to the next record (which
exists by hypothesis); afterwards the session points at the next record, so
no further pitch key can touch the walked record — the walk fires exactly
once — and any sequence containing four ball events, however interleaved
with strikes, reaches raw balls ≥ 4. -/
theorem walk_on_four_balls (s : EditorState) (pitch : Char)
    (hg : s.current_game_index < s.games.length)
    (hp : s.current_play_index < (currentGame s).plays.length)
    (hVA : ¬ (pitch = 'V' ∨ pitch = 'A'))
    (hnext : s.current_play_index + 1 < (currentGame s).plays.length)
    (hraw : 4 ≤ (calculate_raw_balls_strikes
      ((currentPlay s).pitches ++ pitch.toString)
      (starting_count_for_play_index (currentGame s)
        s.current_play_index)).1) :
    (playAt (add_pitch s pitch) s.current_game_index
      s.current_play_index).play_description = "W" ∧
    (playAt (add_pitch s pitch) s.current_game_index
      s.current_play_index).count =
      "3" ++ toString (min (calculate_raw_balls_strikes
        ((currentPlay s).pitches ++ pitch.toString)
        (starting_count_for_play_index (currentGame s)
          s.current_play_index)).2 2) ∧
    (add_pitch s pitch).current_play_index = s.current_play_index + 1 ∧
    (add_pitch s pitch).current_game_index = s.current_game_index ∧
    (∀ p' : Char,
      playAt (add_pitch (add_pitch s pitch) p') s.current_game_index
        s.current_play_index =
      playAt (add_pitch s pitch) s.current_game_index
        s.current_play_index) ∧
    (∀ (pitches sc : String), 4 ≤ pitches.toList.count 'B' →
      4 ≤ (calculate_raw_balls_strikes pitches sc).1) := by
  rw [add_pitch_normal_eq s pitch hg hVA]
  dsimp only
  rw [if_pos hraw]
  have hplay : playAt (next_play (save_current_state
      (update_current_play (save_state_for_undo s)
        { currentPlay s with
          pitches := (currentPlay s).pitches ++ pitch.toString
          count := "3" ++ toString (min (calculate_raw_balls_strikes
            ((currentPlay s).pitches ++ pitch.toString)
            (starting_count_for_play_index (currentGame s)
              s.current_play_index)).2 2)
          play_description := "W"
          edited := true }))) s.current_game_index s.current_play_index =
      { currentPlay s with
        pitches := (currentPlay s).pitches ++ pitch.toString
        count := "3" ++ toString (min (calculate_raw_balls_strikes
          ((currentPlay s).pitches ++ pitch.toString)
          (starting_count_for_play_index (currentGame s)
            s.current_play_index)).2 2)
        play_description := "W"
        edited := true } := by
    simp only [playAt_eq, games_next_play, games_save_state]
    exact playAt_update_self (save_state_for_undo s) _ hg hp
  have hpi : (next_play (save_current_state
      (update_current_play (save_state_for_undo s)
        { currentPlay s with
          pitches := (currentPlay s).pitches ++ pitch.toString
          count := "3" ++ toString (min (calculate_raw_balls_strikes
            ((currentPlay s).pitches ++ pitch.toString)
            (starting_count_for_play_index (currentGame s)
              s.current_play_index)).2 2)
          play_description := "W"
          edited := true }))).current_play_index =
      s.current_play_index + 1 := by
    have hlen : (currentGame (save_current_state
        (update_current_play (save_state_for_undo s)
          { currentPlay s with
            pitches := (currentPlay s).pitches ++ pitch.toString
            count := "3" ++ toString (min (calculate_raw_balls_strikes
              ((currentPlay s).pitches ++ pitch.toString)
              (starting_count_for_play_index (currentGame s)
                s.current_play_index)).2 2)
            play_description := "W"
            edited := true }))).plays.length =
        (currentGame s).plays.length := by
      rw [currentGame_save_state, plays_length_update_current,
        currentGame_save_undo]
    rw [next_play_pi]
    rw [if_pos (by rw [hlen]; simp only [pi_save_state, pi_update,
      pi_save_undo]; omega)]
    simp
  refine ⟨?_, ?_, ?_, ?_, ?_, ?_⟩
  · rw [hplay]
  · rw [hplay]
  · exact hpi
  · simp
  · intro p'
    have := add_pitch_other_play (next_play (save_current_state
      (update_current_play (save_state_for_undo s)
        { currentPlay s with
          pitches := (currentPlay s).pitches ++ pitch.toString
          count := "3" ++ toString (min (calculate_raw_balls_strikes
            ((currentPlay s).pitches ++ pitch.toString)
            (starting_count_for_play_index (currentGame s)
              s.current_play_index)).2 2)
          play_description := "W"
          edited := true }))) p' s.current_play_index (by rw [hpi]; omega)
    simpa using this
  · intro pitches sc hcount
    unfold calculate_raw_balls_strikes
    rw [foldl_raw_step_fst]
    omega

/-- Prior record of the inherited-count scenario: same batter, inning and
team, finished with a 0-2 count. -/
def priorPlay02 : Play :=
  { inning := 1, team := 0, batter_id := "bat1", count := "02",
    original_count := some "02", pitches := "CC", play_description := "",
    edited := false }

/-- Current record of the inherited-count scenario: empty, same batter. -/
def freshPlaySameBatter : Play :=
  { inning := 1, team := 0, batter_id := "bat1", count := "00",
    original_count := some "??", pitches := "", play_description := "",
    edited := false }

/-- A quiescent session (pitch mode, no builder state, empty undo log)
positioned on `plays[pi]` of a one-game file. -/
def baseSession (plays : List Play) (pi : Nat) : EditorState :=
  { games := [{ game_id := "G1", plays := plays }]
    current_game_index := 0
    current_play_index := pi
    mode := "pitch"
    undo_history := []
    detail_mode_result := ""
    detail_mode_hit_type := ""
    detail_mode_out_type := ""
    detail_mode_fielders := []
    detail_mode_from_pitch_pb_wp := false
    detail_mode_pb_wp_code := ""
    detail_pickoff_base := ""
    detail_pickoff_fielders := []
    detail_pickoff_error_fielder := none
    detail_pickoff_awaiting_error_fielder := false
    runner_tokens := []
    advance_from_base := ""
    oa_stage := "choose_runner"
    oa_from_base := ""
    oa_out := false
    oa_dest := ""
    oa_fielders := []
    sb_targets := []
    modifier_selection_active := false
    selected_modifier_group := ""
    selected_modifiers := []
    modifiers_live_applied := false
    hit_location_active := false
    hit_location_positions := ""
    hit_location_suffix := ""
    hit_location_depth := ""
    hit_location_foul := false
    advance_runner_active := false
    advance_runner_from_base := ""
    advance_runner_tokens := []
    messages := [] }

/-- A session whose current record inherits a 0-2 count from the prior
record (same batter, inning and team), as after a mid-at-bat event. -/
def inheritedCountSession : EditorState :=
  baseSession [priorPlay02, freshPlaySameBatter] 1

/-- C4 counterexample: with an inherited 0-2 starting count, pressing 'S'
yields raw strikes 3 (per the count engine, which includes the inherited
count), yet `_add_pitch` leaves the result code empty, because its
strikeout check (`_has_strikeout`) ignores the inherited starting count. -/
theorem strikeout_raw_threshold_counterexample :
    3 ≤ (calculate_raw_balls_strikes ("" ++ "S")
      (starting_count_for_play_index (currentGame inheritedCountSession)
        1)).2 ∧
    (playAt (add_pitch inheritedCountSession 'S') 0 1).play_description =
      "" ∧
    "" ≠ "K" := by
  refine ⟨by decide, ?_, by decide⟩
  decide

/-- C4 (amended): when a non-V/A pitch does not trigger the walk and the
pitch sequence alone (counted from 0-0, ignoring any inherited starting
count — this is `_has_strikeout`'s rule, not the raw-strike total) reaches
three strikes, `_add_pitch` sets the result to "K" prefixed to any existing
result that does not already start with "K" (so a previously appended
"+PB..."/"+WP..." suffix remains the trailing segment after the leading
"K"), or to plain "K" otherwise; the mode, play index and game index are
unchanged (no auto-advance).  On a generic-out commit the same suffix rule
holds: the new primary result is prefixed before the existing "+" suffix. -/
theorem strikeout_sets_result (s : EditorState) (pitch : Char)
    (hg : s.current_game_index < s.games.length)
    (hp : s.current_play_index < (currentGame s).plays.length)
    (hVA : ¬ (pitch = 'V' ∨ pitch = 'A'))
    (hwalk : ¬ 4 ≤ (calculate_raw_balls_strikes
      ((currentPlay s).pitches ++ pitch.toString)
      (starting_count_for_play_index (currentGame s)
        s.current_play_index)).1)
    (hK : has_strikeout ((currentPlay s).pitches ++ pitch.toString) = true) :
    (playAt (add_pitch s pitch) s.current_game_index
      s.current_play_index).play_description =
      (if (currentPlay s).play_description ≠ "" ∧
          ¬ py_startswith (currentPlay s).play_description "K" then
        "K" ++ (currentPlay s).play_description
      else "K") ∧
    (add_pitch s pitch).mode = s.mode ∧
    (add_pitch s pitch).current_play_index = s.current_play_index ∧
    (add_pitch s pitch).current_game_index = s.current_game_index ∧
    (∀ t : EditorState,
      t.current_game_index < t.games.length →
      t.current_play_index < (currentGame t).plays.length →
      (t.detail_mode_result = "OUT" ∨ t.detail_mode_result = "GDP" ∨
        t.detail_mode_result = "LDP" ∨ t.detail_mode_result = "TP" ∨
        t.detail_mode_result = "FO" ∨ t.detail_mode_result = "UO") →
      t.detail_mode_out_type ≠ "" →
      t.detail_mode_fielders ≠ [] →
      (currentPlay (save_detail_mode_result t)).play_description =
        generate_detailed_play_description t.detail_mode_result
          t.detail_mode_out_type (.list t.detail_mode_fielders) ++
          plus_suffix (currentPlay t).play_description) := by
  have hout : ∀ t : EditorState,
      t.current_game_index < t.games.length →
      t.current_play_index < (currentGame t).plays.length →
      (t.detail_mode_result = "OUT" ∨ t.detail_mode_result = "GDP" ∨
        t.detail_mode_result = "LDP" ∨ t.detail_mode_result = "TP" ∨
        t.detail_mode_result = "FO" ∨ t.detail_mode_result = "UO") →
      t.detail_mode_out_type ≠ "" →
      t.detail_mode_fielders ≠ [] →
      (currentPlay (save_detail_mode_result t)).play_description =
        generate_detailed_play_description t.detail_mode_result
          t.detail_mode_out_type (.list t.detail_mode_fielders) ++
          plus_suffix (currentPlay t).play_description := by
    intro t hgt hpt hres hot hf
    rw [save_detail_out_eq t hres hot hf]
    exact (commit_detail_spec t _ _ _ hgt hpt).1
  rw [add_pitch_normal_eq s pitch hg hVA]
  dsimp only
  rw [if_neg hwalk, if_pos hK]
  refine ⟨?_, rfl, rfl, rfl, hout⟩
  have hplay := playAt_update_self (save_state_for_undo s)
    { currentPlay s with
      pitches := (currentPlay s).pitches ++ pitch.toString
      count := calculate_count ((currentPlay s).pitches ++ pitch.toString)
        (starting_count_for_play_index (currentGame s) s.current_play_index)
      edited := true
      play_description :=
        if (currentPlay s).play_description ≠ "" ∧
            ¬ py_startswith (currentPlay s).play_description "K" then
          "K" ++ (currentPlay s).play_description
        else "K" } hg hp
  exact ((congrArg Play.play_description
    ((playAt_eq _ _ _).trans ((congrArg (fun l => playAtGames l
      s.current_game_index s.current_play_index)
      (games_save_state _)).trans ((playAt_eq _ _ _).symm.trans hplay)))))

/-- A record carrying a pitch-triggered "+PB.2-3" suffix and two strikes. -/
def pbSuffixPlay : Play :=
  { inning := 1, team := 0, batter_id := "bat1", count := "02",
    original_count := some "??", pitches := "SS.",
    play_description := "+PB.2-3", edited := true }

def strikeoutWitnessSession : EditorState := baseSession [pbSuffixPlay] 0

/-- C4 witness: pressing 'C' on a record with pitches "SS." and result
"+PB.2-3" produces result "K+PB.2-3" (suffix trailing), with no mode
change and no advance. -/
theorem strikeout_sets_result_witness :
    (playAt (add_pitch strikeoutWitnessSession 'C') 0 0).play_description =
      "K+PB.2-3" ∧
    (add_pitch strikeoutWitnessSession 'C').mode = "pitch" ∧
    (add_pitch strikeoutWitnessSession 'C').current_play_index = 0 := by
  have h := strikeout_sets_result strikeoutWitnessSession 'C' (by decide)
    (by decide) (by decide) (by decide) (by decide)
  exact ⟨h.1.trans (by decide), h.2.1.trans rfl, h.2.2.1.trans rfl⟩

lemma intercalate_two (a b : String) :
    String.intercalate "/" [a, b] = a ++ "/" ++ b := by
  simp [String.intercalate, String.intercalate.go]

lemma intercalate_three (a b c : String) :
    String.intercalate "/" [a, b, c] = a ++ "/" ++ b ++ "/" ++ c := by
  simp [String.intercalate, String.intercalate.go, String.append_assoc]

lemma foldl_append_length (l : List String) (init : String) :
    init.length ≤ (l.foldl (· ++ ·) init).length := by
  induction l generalizing init with
  | nil => simp
  | cons a rest ih =>
    simp only [List.foldl_cons]
    calc init.length ≤ (init ++ a).length := by simp
    _ ≤ _ := ih (init ++ a)

lemma fielder_string_ne_empty (l : List Nat) (hne : l ≠ [])
    (hd : ∀ f ∈ l, 1 ≤ f ∧ f ≤ 9) : fielder_string l ≠ "" := by
  match l, hne with
  | f :: rest, _ =>
    have hf9 := hd f (List.mem_cons_self f rest)
    have h1 : 1 ≤ (toString f).length := by
      obtain ⟨h1, h9⟩ := hf9
      interval_cases f <;> decide
    have hlen : 1 ≤ (fielder_string (f :: rest)).length := by
      unfold fielder_string
      simp only [List.map_cons, String.join, List.foldl_cons]
      calc 1 ≤ (toString f).length := h1
      _ = ("" ++ toString f).length := by simp
      _ ≤ _ := foldl_append_length _ _
    intro hcontra
    rw [hcontra] at hlen
    simp at hlen

/-- C6: for a generic-out family commit (OUT/GDP/LDP/TP/FO/UO) with a
chosen non-strikeout out-subtype and a non-empty fielder sequence of
positions 1-9, the production is the concatenated fielder digits, then '/',
then the subtype code, with "/"+category appended only when the category
code differs from the subtype code; a ground-ball double play on fielders
[6,4,3] yields exactly "643/G/GDP". -/
theorem out_family_production (result out_type : String)
    (fielders : List Nat)
    (hres : result = "OUT" ∨ result = "GDP" ∨ result = "LDP" ∨
      result = "TP" ∨ result = "FO" ∨ result = "UO")
    (hot : out_type ≠ "")
    (hK : out_type ≠ "K")
    (hne : fielders ≠ [])
    (hd : ∀ f ∈ fielders, 1 ≤ f ∧ f ≤ 9) :
    (∃ extra : String,
      generate_detailed_play_description result out_type (.list fielders) =
        fielder_string fielders ++ "/" ++ out_type ++ extra ∧
      (extra = "" ∨ (extra = "/" ++ result ∧ result ≠ out_type))) ∧
    generate_detailed_play_description "GDP" "G" (.list [6, 4, 3]) =
      "643/G/GDP" := by
  have hfs := fielder_string_ne_empty fielders hne hd
  constructor
  · rcases hres with h | h | h | h | h | h <;> subst h <;>
      unfold generate_detailed_play_description <;>
      rw [if_neg (by decide), if_neg (by decide), if_neg (by decide),
        if_neg (by decide), if_neg (by decide), if_neg (by decide),
        if_neg (by decide), if_neg (by decide), if_pos (by decide),
        if_neg hK] <;>
      dsimp only <;>
      rw [if_neg hfs, if_pos hot] <;>
      split_ifs with hc <;>
      first
        | exact absurd hc.1 (by decide)
        | (refine ⟨_, ?_, Or.inr ⟨rfl, hc.2⟩⟩
           simp only [List.cons_append, List.nil_append]
           rw [intercalate_three]
           simp [String.append_assoc])
        | (refine ⟨"", ?_, Or.inl rfl⟩
           simp only [List.cons_append, List.nil_append]
           rw [intercalate_two]
           simp)
  · decide

lemma updAt_updAt (s : EditorState) (gi pi : Nat) (a b : Play) :
    update_play_at (update_play_at s gi pi a) gi pi b =
      update_play_at s gi pi b := by
  by_cases hg : gi < s.games.length
  · unfold update_play_at
    simp only [getD_set_self _ _ _ _ hg, List.set_set]
  · unfold update_play_at
    dsimp only
    simp only [set_oob _ _ _ hg]

lemma playAt_updAt_self (s : EditorState) (gi pi : Nat) (p : Play)
    (hg : gi < s.games.length)
    (hp : pi < (gameAt s gi).plays.length) :
    playAt (update_play_at s gi pi p) gi pi = p := by
  unfold playAt update_play_at
  rw [getD_set_self _ _ _ _ hg]
  exact getD_set_self _ _ _ _ (by simpa [gameAt] using hp)

lemma gameAt_updAt (s : EditorState) (gi pi : Nat) (p : Play)
    (hg : gi < s.games.length) :
    gameAt (update_play_at s gi pi p) gi =
      { gameAt s gi with plays := (gameAt s gi).plays.set pi p } := by
  unfold gameAt update_play_at
  show (s.games.set gi _).getD gi defaultGame = _
  exact getD_set_self _ _ _ _ hg

@[simp] lemma games_len_updAt (s : EditorState) (gi pi : Nat) (p : Play) :
    (update_play_at s gi pi p).games.length = s.games.length := by
  simp [update_play_at]

@[simp] lemma undo_history_updAt (s : EditorState) (gi pi : Nat) (p : Play) :
    (update_play_at s gi pi p).undo_history = s.undo_history := rfl

lemma undo_empty (t : EditorState) (h : t.undo_history = []) :
    undo_last_action t =
      { t with messages := t.messages ++ ["Nothing to undo"] } := by
  unfold undo_last_action
  rw [h]
  rfl

lemma undo_restore_spec (t : EditorState) (gi pi : Nat) (P D : String)
    (hg : gi < t.games.length)
    (hp : pi < (gameAt t gi).plays.length) :
    (playAt (undo_restore t gi pi P D) gi pi).pitches = P ∧
    (playAt (undo_restore t gi pi P D) gi pi).play_description = D ∧
    (playAt (undo_restore t gi pi P D) gi pi).edited = false ∧
    (playAt (undo_restore t gi pi P D) gi pi).count =
      calculate_count P
        (starting_count_for_play_index (gameAt t gi) pi) := by
  have hg1 : gi < ({ t with
      undo_history := t.undo_history.dropLast } : EditorState).games.length :=
    hg
  have hp1 : pi < (gameAt ({ t with
      undo_history := t.undo_history.dropLast } : EditorState) gi).plays.length :=
    hp
  unfold undo_restore
  dsimp only
  rw [updAt_updAt]
  have hplay := playAt_updAt_self
    ({ t with undo_history := t.undo_history.dropLast } : EditorState) gi pi
    { playAt ({ t with
        undo_history := t.undo_history.dropLast } : EditorState) gi pi with
      pitches := P
      play_description := D
      edited := false
      count := calculate_count P (starting_count_for_play_index
        (gameAt (update_play_at
          ({ t with undo_history := t.undo_history.dropLast } : EditorState)
          gi pi
          { playAt ({ t with
              undo_history := t.undo_history.dropLast } : EditorState) gi pi with
            pitches := P
            play_description := D
            edited := false }) gi) pi) }
    hg1 hp1
  have hstart : starting_count_for_play_index
      (gameAt (update_play_at
        ({ t with undo_history := t.undo_history.dropLast } : EditorState)
        gi pi
        { playAt ({ t with
            undo_history := t.undo_history.dropLast } : EditorState) gi pi with
          pitches := P
          play_description := D
          edited := false }) gi) pi =
      starting_count_for_play_index (gameAt t gi) pi := by
    rw [gameAt_updAt _ _ _ _ hg1]
    exact starting_count_set_self _ _ _ rfl rfl rfl
  refine ⟨?_, ?_, ?_, ?_⟩
  · exact (congrArg Play.pitches
      ((playAt_eq _ _ _).trans ((congrArg (fun l => playAtGames l gi pi)
        (games_save_state _)).trans
        ((playAt_eq _ _ _).symm.trans hplay)))).trans rfl
  · exact (congrArg Play.play_description
      ((playAt_eq _ _ _).trans ((congrArg (fun l => playAtGames l gi pi)
        (games_save_state _)).trans
        ((playAt_eq _ _ _).symm.trans hplay)))).trans rfl
  · exact (congrArg Play.edited
      ((playAt_eq _ _ _).trans ((congrArg (fun l => playAtGames l gi pi)
        (games_save_state _)).trans
        ((playAt_eq _ _ _).symm.trans hplay)))).trans rfl
  · refine (congrArg Play.count
      ((playAt_eq _ _ _).trans ((congrArg (fun l => playAtGames l gi pi)
        (games_save_state _)).trans
        ((playAt_eq _ _ _).symm.trans hplay)))).trans ?_
    exact congrArg (calculate_count P) hstart

lemma getLast_push (s : EditorState) :
    (save_state_for_undo s).undo_history.getLast? =
      some (s.current_game_index, s.current_play_index,
        (currentPlay s).pitches, (currentPlay s).play_description) := by
  unfold save_state_for_undo
  dsimp only
  split_ifs with h
  · have hlen : 1 ≤ s.undo_history.length := by
      simp at h
      omega
    rw [List.drop_append_of_le_length hlen]
    exact List.getLast?_concat _
  · exact List.getLast?_concat _

lemma plays_len_games_update (s : EditorState) (p : Play) (gi : Nat) :
    ((update_current_play s p).games.getD gi defaultGame).plays.length =
      ((s.games.getD gi defaultGame)).plays.length :=
  plays_length_update s p gi

lemma plays_len_games_ensure (s : EditorState) (gi : Nat) :
    ((ensure_ball_in_play_marker s).games.getD gi defaultGame).plays.length =
      ((s.games.getD gi defaultGame)).plays.length := by
  unfold ensure_ball_in_play_marker
  dsimp only
  split_ifs
  · rfl
  · simp only [update_update]
    exact plays_len_games_update s _ gi

/-- Python `str.endswith`: list-based (reduces in the kernel, unlike
`String.endsWith`). -/
def py_endswith (s suf : String) : Bool :=
  suf.toList.isSuffixOf s.toList

/-- editor.py `_format_modifiers_suffix`. -/
def format_modifiers_suffix (s : EditorState) : String :=
  "/" ++ String.intercalate "/" s.selected_modifiers

/-- editor.py `_append_modifier_to_current_play`: live-apply of one
modifier code — records it for the UI, then appends "/"+code to the result
(no extra slash when one is already trailing), marks edited and persists.
It pushes NO undo snapshot. -/
def append_modifier_to_current_play (s : EditorState) (code : String) :
    EditorState :=
  let s := { s with selected_modifiers := s.selected_modifiers ++ [code] }
  let p := currentPlay s
  if p.play_description = "" then s
  else
    let p :=
      if ¬ py_endswith p.play_description "/" then
        { p with play_description := p.play_description ++ "/" ++ code }
      else
        { p with play_description := p.play_description ++ code }
    let p := { p with edited := true }
    let s := update_current_play s p
    save_current_state s

/-- editor.py `_extract_primary_fielder_from_play_description`: the regex
`^[A-Z]+(\d+)/` — leading uppercase letters, then digits, then '/'; returns
the first captured digit. -/
def extract_primary_fielder_from_play_description (desc : String) :
    Option Nat :=
  let l := desc.toList
  let letters := l.takeWhile (fun c => c.isUpper)
  let rest := l.drop letters.length
  let digits := rest.takeWhile (fun c => c.isDigit)
  let rest2 := rest.drop digits.length
  if letters ≠ [] ∧ digits ≠ [] ∧ rest2.headD ' ' = '/' then
    some ((digits.headD '0').toNat - 48)
  else none

/-- Python `desc.split("/")[-1]`: the segment after the last '/' (the whole
string when there is none). -/
def tail_after_last_slash (desc : String) : String :=
  String.mk ((desc.toList.reverse.takeWhile (fun c => c ≠ '/')).reverse)

/-- editor.py `_append_hit_location_to_current_play`: append the location
code with no separator, prefixing the primary fielder digit once on the
first append after a bare hit-shape token when that fielder is an infielder
(1-6).  It pushes NO undo snapshot. -/
def append_hit_location_to_current_play (s : EditorState) (code : String) :
    EditorState :=
  let p := currentPlay s
  if p.play_description = "" then s
  else
    let fielder :=
      extract_primary_fielder_from_play_description p.play_description
    let tail := tail_after_last_slash p.play_description
    let is_first_append :=
      tail = "G" ∨ tail = "L" ∨ tail = "F" ∨ tail = "P" ∨ tail = "B"
    let prefixed_code :=
      match fielder with
      | some f =>
        if is_first_append ∧ (f = 1 ∨ f = 2 ∨ f = 3 ∨ f = 4 ∨ f = 5 ∨
            f = 6) then
          toString f ++ code
        else code
      | none => code
    let p := { p with play_description := p.play_description ++ prefixed_code,
                      edited := true }
    let s := update_current_play s p
    save_current_state s

/-- editor.py `_handle_modifier_mode_input`, advance-runner wizard ENTER
handler (the apply step): append the collected tokens to the existing
result with "." or ";", then reset the wizard.  It pushes NO undo
snapshot. -/
def apply_advance_runner_tokens (s : EditorState) : EditorState :=
  let s :=
    if s.advance_runner_tokens ≠ [] then
      let p := currentPlay s
      if p.play_description ≠ "" then
        let sep := if '.' ∈ p.play_description.toList then ";" else "."
        let p := { p with
          play_description := p.play_description ++ sep ++
            String.intercalate ";" s.advance_runner_tokens
          edited := true }
        let s := update_current_play s p
        save_current_state s
      else s
    else s
  { s with advance_runner_active := false
           advance_runner_from_base := ""
           advance_runner_tokens := []
           selected_modifier_group := "" }

/-- editor.py `_apply_modifiers_to_current_play` (batch apply; a no-op when
live apply is on or nothing is selected).  It pushes NO undo snapshot. -/
def apply_modifiers_to_current_play (s : EditorState) : EditorState :=
  if s.modifiers_live_applied = true ∨ s.selected_modifiers = [] then s
  else
    let p := currentPlay s
    let p := { p with
      play_description := p.play_description ++ format_modifiers_suffix s
      edited := true }
    let s := update_current_play s p
    save_current_state s

/-- The record-mutating session operations of the editor.  The first five
push an undo snapshot of the current record before changing it
(`_save_state_for_undo`); the last four — the modifier-phase mutators —
change the record's result code without pushing any snapshot. -/
inductive MutOp where
  | addPitch (c : Char)
  | setPlayResult (r : String)
  | clearPitches
  | clearPlayResult
  | markBallInPlaySwitch
  | appendModifier (code : String)
  | appendHitLocation (code : String)
  | advanceRunnerApply
  | applyModifiers
deriving Repr, DecidableEq

def MutOp.apply : MutOp → EditorState → EditorState
  | .addPitch c, s => add_pitch s c
  | .setPlayResult r, s => set_play_result s r
  | .clearPitches, s => clear_pitches s
  | .clearPlayResult, s => clear_play_result s
  | .markBallInPlaySwitch, s => mark_ball_in_play_and_switch s
  | .appendModifier code, s => append_modifier_to_current_play s code
  | .appendHitLocation code, s => append_hit_location_to_current_play s code
  | .advanceRunnerApply, s => apply_advance_runner_tokens s
  | .applyModifiers, s => apply_modifiers_to_current_play s

/-- Which operations call `_save_state_for_undo` before mutating. -/
def MutOp.pushes_snapshot : MutOp → Bool
  | .addPitch _ => true
  | .setPlayResult _ => true
  | .clearPitches => true
  | .clearPlayResult => true
  | .markBallInPlaySwitch => true
  | .appendModifier _ => false
  | .appendHitLocation _ => false
  | .advanceRunnerApply => false
  | .applyModifiers => false

lemma shape_apply (op : MutOp) (s : EditorState)
    (hpush : MutOp.pushes_snapshot op = true) :
    (MutOp.apply op s).undo_history =
      (save_state_for_undo s).undo_history ∧
    (MutOp.apply op s).games.length = s.games.length ∧
    (∀ gi, ((MutOp.apply op s).games.getD gi defaultGame).plays.length =
      ((s.games.getD gi defaultGame)).plays.length) := by
  cases op with
  | appendModifier code => simp [MutOp.pushes_snapshot] at hpush
  | appendHitLocation code => simp [MutOp.pushes_snapshot] at hpush
  | advanceRunnerApply => simp [MutOp.pushes_snapshot] at hpush
  | applyModifiers => simp [MutOp.pushes_snapshot] at hpush
  | addPitch c =>
    refine ⟨?_, ?_, ?_⟩
    · unfold MutOp.apply add_pitch
      dsimp only
      split_ifs <;> simp
    · unfold MutOp.apply add_pitch
      dsimp only
      split_ifs <;>
        simp only [update_flags_comm, update_update] <;>
        simp [update_current_play]
    · intro gi
      unfold MutOp.apply add_pitch
      dsimp only
      split_ifs <;>
        simp only [update_flags_comm, update_update, games_enter_detail,
          games_save_state, games_next_play] <;>
        exact (plays_len_games_update (save_state_for_undo s) _ gi).trans rfl
  | setPlayResult r =>
    refine ⟨by simp [MutOp.apply, set_play_result], ?_, ?_⟩
    · simp [MutOp.apply, set_play_result, update_current_play]
    · intro gi
      unfold MutOp.apply set_play_result
      dsimp only
      simp only [games_save_state]
      exact (plays_len_games_update (save_state_for_undo s) _ gi).trans rfl
  | clearPitches =>
    refine ⟨by simp [clear_pitches, MutOp.apply], ?_, ?_⟩
    · simp [MutOp.apply, clear_pitches, update_current_play]
    · intro gi
      unfold MutOp.apply clear_pitches
      dsimp only
      simp only [update_update, games_save_state]
      exact (plays_len_games_update (save_state_for_undo s) _ gi).trans rfl
  | clearPlayResult =>
    refine ⟨by simp [clear_play_result, MutOp.apply], ?_, ?_⟩
    · simp [MutOp.apply, clear_play_result, reset_detail_mode,
        update_current_play]
    · intro gi
      unfold MutOp.apply clear_play_result
      dsimp only
      simp only [games_reset_detail, games_save_state]
      exact (plays_len_games_update (save_state_for_undo s) _ gi).trans rfl
  | markBallInPlaySwitch =>
    refine ⟨by simp [mark_ball_in_play_and_switch, MutOp.apply], ?_, ?_⟩
    · unfold MutOp.apply mark_ball_in_play_and_switch
      dsimp only
      have := games_length_ensure (save_state_for_undo s)
      simp at this ⊢
      omega
    · intro gi
      unfold MutOp.apply mark_ball_in_play_and_switch
      dsimp only
      simp only [games_save_state]
      exact (plays_len_games_ensure (save_state_for_undo s) gi).trans rfl

lemma undo_some (t : EditorState) (gi pi : Nat) (P D : String)
    (h : t.undo_history.getLast? = some (gi, pi, P, D)) :
    undo_last_action t = undo_restore t gi pi P D := by
  unfold undo_last_action
  rw [h]

/-- A record as it stands right after a committed single to short: pitches
hold the ball-in-play marker and the result is "S6/G". -/
def hitCommittedPlay : Play :=
  { inning := 1, team := 0, batter_id := "bat1", count := "00",
    original_count := some "??", pitches := "X",
    play_description := "S6/G", edited := true }

/-- A session in the auxiliary modifier phase on that record, with the undo
log holding only the snapshot pushed by the earlier commit (taken before
the record had any pitches or result). -/
def modifierPhaseSession : EditorState :=
  { baseSession [hitCommittedPlay] 0 with
    mode := "detail"
    modifier_selection_active := true
    modifiers_live_applied := true
    undo_history := [(0, 0, "", "")] }

/-- C7 counterexample: the live modifier append (a record-mutating
operation) pushes no undo snapshot, so undo immediately afterwards pops the
snapshot of the earlier commit instead: it rewinds the record past the
modifier append, to pitches "" and result "" rather than the pre-operation
pitches "X" and result "S6/G". -/
theorem undo_after_modifier_counterexample :
    (currentPlay modifierPhaseSession).play_description = "S6/G" ∧
    (currentPlay modifierPhaseSession).pitches = "X" ∧
    (playAt (MutOp.apply (MutOp.appendModifier "AP") modifierPhaseSession)
      0 0).play_description = "S6/G/AP" ∧
    (playAt (undo_last_action (MutOp.apply (MutOp.appendModifier "AP")
      modifierPhaseSession)) 0 0).play_description = "" ∧
    (playAt (undo_last_action (MutOp.apply (MutOp.appendModifier "AP")
      modifierPhaseSession)) 0 0).pitches = "" ∧
    ("" : String) ≠ "S6/G" ∧ ("" : String) ≠ "X" := by
  refine ⟨by decide, by decide, by decide, ?_, ?_, by decide, by decide⟩ <;>
    decide

/-- C7 (amended): for every record-mutating operation that pushes an undo
snapshot (add pitch, set result, clear pitches, clear result, mark
ball-in-play — the modifier-phase mutators push none and are excluded),
running undo immediately afterwards restores the record's pitch sequence
and result code verbatim to their pre-operation values at the snapshotted
indices, leaves the edited flag false, and recomputes the display count
from the restored pitch sequence; undo on an empty log reports "Nothing to
undo" and changes nothing else, never raising. -/
theorem undo_inverts_snapshot_mutations (op : MutOp) (s : EditorState)
    (hpush : MutOp.pushes_snapshot op = true)
    (hg : s.current_game_index < s.games.length)
    (hp : s.current_play_index < (currentGame s).plays.length) :
    (playAt (undo_last_action (MutOp.apply op s)) s.current_game_index
      s.current_play_index).pitches = (currentPlay s).pitches ∧
    (playAt (undo_last_action (MutOp.apply op s)) s.current_game_index
      s.current_play_index).play_description =
      (currentPlay s).play_description ∧
    (playAt (undo_last_action (MutOp.apply op s)) s.current_game_index
      s.current_play_index).edited = false ∧
    (playAt (undo_last_action (MutOp.apply op s)) s.current_game_index
      s.current_play_index).count =
      calculate_count (currentPlay s).pitches
        (starting_count_for_play_index
          (gameAt (MutOp.apply op s) s.current_game_index)
          s.current_play_index) ∧
    (∀ t : EditorState, t.undo_history = [] →
      undo_last_action t =
        { t with messages := t.messages ++ ["Nothing to undo"] }) := by
  obtain ⟨hU, hGL, hPL⟩ := shape_apply op s hpush
  have hlast : (MutOp.apply op s).undo_history.getLast? =
      some (s.current_game_index, s.current_play_index,
        (currentPlay s).pitches, (currentPlay s).play_description) := by
    rw [hU]
    exact getLast_push s
  rw [undo_some _ _ _ _ _ hlast]
  have hg2 : s.current_game_index < (MutOp.apply op s).games.length := by
    rw [hGL]
    exact hg
  have hp2 : s.current_play_index <
      (gameAt (MutOp.apply op s) s.current_game_index).plays.length := by
    have := hPL s.current_game_index
    unfold gameAt
    rw [this]
    exact hp
  obtain ⟨h1, h2, h3, h4⟩ := undo_restore_spec (MutOp.apply op s)
    s.current_game_index s.current_play_index (currentPlay s).pitches
    (currentPlay s).play_description hg2 hp2
  exact ⟨h1, h2, h3, h4, fun t ht => undo_empty t ht⟩

/-- C7 witness: undoing a 'B' pitch on a record with pitches "CC" restores
pitches "CC", an empty result, and a cleared edited flag. -/
theorem undo_inverts_snapshot_mutations_witness :
    (playAt (undo_last_action (MutOp.apply (MutOp.addPitch 'B')
      (baseSession [priorPlay02] 0))) 0 0).pitches = "CC" ∧
    (playAt (undo_last_action (MutOp.apply (MutOp.addPitch 'B')
      (baseSession [priorPlay02] 0))) 0 0).play_description = "" ∧
    (playAt (undo_last_action (MutOp.apply (MutOp.addPitch 'B')
      (baseSession [priorPlay02] 0))) 0 0).edited = false := by
  have h := undo_inverts_snapshot_mutations (MutOp.addPitch 'B')
    (baseSession [priorPlay02] 0) (by decide) (by decide) (by decide)
  exact ⟨h.1.trans (by decide), h.2.1.trans (by decide), h.2.2.1⟩

/-- A detail-mode session with a stolen-base builder and no targets
selected yet. -/
def sbIncompleteSession : EditorState :=
  { baseSession [priorPlay02] 0 with
    mode := "detail"
    detail_mode_result := "SB" }

/-- C9 counterexample: committing an incomplete stolen-base builder is not
a pure no-op on the session — `_save_detail_mode_result` pushes the undo
snapshot before validating the runner-advancement family, so the undo log
grows. -/
theorem incomplete_commit_counterexample :
    (save_detail_mode_result sbIncompleteSession).undo_history ≠
      sbIncompleteSession.undo_history := by
  decide

/-- The builder-completion checks of `_save_detail_mode_result`, negated:
every way a commit attempt can find its minimum selections unmet. -/
def incomplete_builder (s : EditorState) : Prop :=
  ((s.detail_mode_result = "PO" ∨ s.detail_mode_result = "POCS" ∨
    s.detail_mode_result = "CS") ∧ s.detail_pickoff_base = "") ∨
  (s.detail_mode_result = "PO" ∧ s.detail_pickoff_base ≠ "" ∧
    s.detail_pickoff_error_fielder = none ∧
    s.detail_pickoff_fielders = []) ∨
  ((s.detail_mode_result = "POCS" ∨ s.detail_mode_result = "CS") ∧
    s.detail_pickoff_base ≠ "" ∧ s.detail_pickoff_fielders = []) ∨
  (s.detail_mode_result = "SB" ∧ s.sb_targets = []) ∨
  ((s.detail_mode_result = "BK" ∨ s.detail_mode_result = "DI" ∨
    s.detail_mode_result = "PB" ∨ s.detail_mode_result = "WP" ∨
    s.detail_mode_result = "OA") ∧ s.runner_tokens = []) ∨
  ((s.detail_mode_result = "OUT" ∨ s.detail_mode_result = "GDP" ∨
    s.detail_mode_result = "LDP" ∨ s.detail_mode_result = "TP" ∨
    s.detail_mode_result = "FO" ∨ s.detail_mode_result = "UO") ∧
    ¬ (s.detail_mode_out_type ≠ "" ∧ s.detail_mode_fielders ≠ [])) ∨
  ((s.detail_mode_result = "SF" ∨ s.detail_mode_result = "SH") ∧
    ¬ (s.detail_mode_hit_type ≠ "" ∧ s.detail_mode_fielders ≠ [])) ∨
  (¬ (s.detail_mode_result = "PO" ∨ s.detail_mode_result = "POCS" ∨
      s.detail_mode_result = "CS") ∧
    ¬ (s.detail_mode_result = "BK" ∨ s.detail_mode_result = "DI" ∨
      s.detail_mode_result = "PB" ∨ s.detail_mode_result = "WP" ∨
      s.detail_mode_result = "SB" ∨ s.detail_mode_result = "OA") ∧
    ¬ (s.detail_mode_result = "OUT" ∨ s.detail_mode_result = "GDP" ∨
      s.detail_mode_result = "LDP" ∨ s.detail_mode_result = "TP" ∨
      s.detail_mode_result = "FO" ∨ s.detail_mode_result = "UO") ∧
    ¬ (s.detail_mode_result = "SF" ∨ s.detail_mode_result = "SH") ∧
    ¬ (s.detail_mode_result ≠ "" ∧ s.detail_mode_hit_type ≠ ""))

/-- C9 (amended): committing a builder whose minimum selections are unmet
never raises and produces only a user-visible hint; the record, the builder
state, the mode and the indices are untouched — but in the runner
advancement family (BK/DI/PB/WP/SB/OA) an undo snapshot of the unchanged
record has already been pushed, so the undo log may grow by that snapshot;
every other field of the session equals its prior value. -/
theorem incomplete_commit_noop (s : EditorState)
    (h : incomplete_builder s) :
    ∃ (hist : List (Nat × Nat × String × String)) (msg : String),
      (hist = s.undo_history ∨
        hist = (save_state_for_undo s).undo_history) ∧
      save_detail_mode_result s =
        { s with undo_history := hist,
                 messages := s.messages ++ [msg] } := by
  rcases h with ⟨hres, hbase⟩ | ⟨hres, hbase, herr, hf⟩ |
    ⟨hres, hbase, hf⟩ | ⟨hres, htg⟩ | ⟨hres, htok⟩ | ⟨hres, hsel⟩ |
    ⟨hres, hsel⟩ | ⟨h1, h2, h3, h4, h5⟩
  · refine ⟨s.undo_history, "Please select the base", Or.inl rfl, ?_⟩
    unfold save_detail_mode_result
    rw [if_pos hres, if_pos hbase]
  · refine ⟨s.undo_history, "Select fielder sequence or error",
      Or.inl rfl, ?_⟩
    unfold save_detail_mode_result
    rw [if_pos (Or.inl hres), if_neg hbase, if_pos ⟨hres, herr, hf⟩]
  · refine ⟨s.undo_history, "Select fielder sequence", Or.inl rfl, ?_⟩
    unfold save_detail_mode_result
    rw [if_pos (Or.inr hres), if_neg hbase]
    rw [if_neg (by rintro ⟨hPO, -⟩; rcases hres with h | h <;> rw [h] at hPO
      <;> exact absurd hPO (by decide))]
    rw [if_pos ⟨hres, hf⟩]
  · refine ⟨(save_state_for_undo s).undo_history,
      "Select at least one stolen base", Or.inr rfl, ?_⟩
    unfold save_detail_mode_result
    rw [if_neg (by rw [hres]; decide), if_pos (by rw [hres]; decide)]
    simp only [detail_result_save_undo, sb_targets_save_undo]
    rw [if_pos hres, if_pos htg]
    rfl
  · refine ⟨(save_state_for_undo s).undo_history,
      "Add at least one runner advance", Or.inr rfl, ?_⟩
    unfold save_detail_mode_result
    rw [if_neg (by rcases hres with h | h | h | h | h <;> rw [h] <;> decide),
      if_pos (by rcases hres with h | h | h | h | h <;> rw [h] <;> decide)]
    simp only [detail_result_save_undo, runner_tokens_save_undo]
    rw [if_neg (by rcases hres with h | h | h | h | h <;> rw [h] <;> decide),
      if_pos htok]
    rfl
  · refine ⟨s.undo_history, "Please complete all detail selections",
      Or.inl rfl, ?_⟩
    unfold save_detail_mode_result
    rw [if_neg (by rcases hres with h | h | h | h | h | h <;> rw [h] <;>
        decide),
      if_neg (by rcases hres with h | h | h | h | h | h <;> rw [h] <;>
        decide),
      if_pos hres, if_neg hsel]
  · refine ⟨s.undo_history, "Please complete all detail selections",
      Or.inl rfl, ?_⟩
    unfold save_detail_mode_result
    rw [if_neg (by rcases hres with h | h <;> rw [h] <;> decide),
      if_neg (by rcases hres with h | h <;> rw [h] <;> decide),
      if_neg (by rcases hres with h | h <;> rw [h] <;> decide),
      if_pos hres, if_neg hsel]
  · refine ⟨s.undo_history, "Please complete all detail selections",
      Or.inl rfl, ?_⟩
    unfold save_detail_mode_result
    rw [if_neg h1, if_neg h2, if_neg h3, if_neg h4, if_neg h5]

/-- A detail-mode session with a pickoff builder and no base chosen yet. -/
def poIncompleteSession : EditorState :=
  { baseSession [priorPlay02] 0 with
    mode := "detail"
    detail_mode_result := "PO" }

/-- C9 witness: an incomplete pickoff commit attempt only appends a hint. -/
theorem incomplete_commit_noop_witness :
    ∃ (hist : List (Nat × Nat × String × String)) (msg : String),
      (hist = poIncompleteSession.undo_history ∨
        hist = (save_state_for_undo poIncompleteSession).undo_history) ∧
      save_detail_mode_result poIncompleteSession =
        { poIncompleteSession with
          undo_history := hist
          messages := poIncompleteSession.messages ++ [msg] } :=
  incomplete_commit_noop poIncompleteSession (Or.inl ⟨Or.inl rfl, rfl⟩)

/-- C10: committing a result routes pitch-marking through
`_ensure_ball_in_play_marker`, which appends 'X' only when absent and
recomputes the count, so the marker operation is idempotent, a record whose
pitch sequence holds at most one 'X' still holds at most one after any
number of result commits, and when 'X' was absent the new pitch sequence is
exactly the old one with 'X' appended and the count is recomputed from it. -/
theorem ball_in_play_marker_once (s : EditorState)
    (hg : s.current_game_index < s.games.length)
    (hp : s.current_play_index < (currentGame s).plays.length) :
    ensure_ball_in_play_marker (ensure_ball_in_play_marker s) =
      ensure_ball_in_play_marker s ∧
    'X' ∈ (currentPlay (ensure_ball_in_play_marker s)).pitches.toList ∧
    ((currentPlay s).pitches.toList.count 'X' ≤ 1 →
      (currentPlay (ensure_ball_in_play_marker s)).pitches.toList.count 'X'
        ≤ 1) ∧
    ('X' ∈ (currentPlay s).pitches.toList →
      ensure_ball_in_play_marker s = s) ∧
    (¬ 'X' ∈ (currentPlay s).pitches.toList →
      (currentPlay (ensure_ball_in_play_marker s)).pitches =
        (currentPlay s).pitches ++ "X" ∧
      (currentPlay (ensure_ball_in_play_marker s)).count =
        calculate_count ((currentPlay s).pitches ++ "X")
          (starting_count_for_play_index (currentGame s)
            s.current_play_index) ∧
      (currentPlay (ensure_ball_in_play_marker s)).edited = true) ∧
    (∀ (t : EditorState) (desc : String) (marker : Bool) (group : String),
      t.current_game_index < t.games.length →
      t.current_play_index < (currentGame t).plays.length →
      (currentPlay t).pitches.toList.count 'X' ≤ 1 →
      (currentPlay (commit_detail_description t desc marker
        group)).pitches.toList.count 'X' ≤ 1) := by
  have hcommit : ∀ (t : EditorState) (desc : String) (marker : Bool)
      (group : String),
      t.current_game_index < t.games.length →
      t.current_play_index < (currentGame t).plays.length →
      (currentPlay t).pitches.toList.count 'X' ≤ 1 →
      (currentPlay (commit_detail_description t desc marker
        group)).pitches.toList.count 'X' ≤ 1 := by
    intro t desc marker group hgt hpt hX
    rcases (commit_detail_spec t desc marker group hgt hpt).2.1 with
      heq | ⟨hmem, heq⟩
    · rw [heq]
      exact hX
    · rw [heq, toList_string_append]
      have h0 : (currentPlay t).pitches.toList.count 'X' = 0 :=
        List.count_eq_zero.mpr hmem
      have hXl : ("X" : String).toList = ['X'] := rfl
      rw [hXl, count_X_append, h0]
  by_cases h : 'X' ∈ (currentPlay s).pitches.toList
  · rw [ensure_marker_mem s h]
    exact ⟨ensure_marker_mem s h, h, fun hc => hc, fun _ => rfl,
      fun hn => absurd h hn, hcommit⟩
  · have heq := ensure_marker_not_mem s hg h
    have hcp : currentPlay (ensure_ball_in_play_marker s) =
        { currentPlay s with
          pitches := (currentPlay s).pitches ++ "X"
          count := calculate_count ((currentPlay s).pitches ++ "X")
            (starting_count_for_play_index (currentGame s)
              s.current_play_index)
          edited := true } := by
      rw [heq]
      exact currentPlay_update s _ hg hp
    have hmem : 'X' ∈ (currentPlay (ensure_ball_in_play_marker s)).pitches.toList := by
      rw [hcp]
      simp [toList_string_append]
    refine ⟨ensure_marker_mem _ hmem, hmem, ?_, fun hx => absurd hx h, ?_,
      hcommit⟩
    · intro hc
      rw [hcp]
      simp only [toList_string_append]
      have : (currentPlay s).pitches.toList.count 'X' = 0 :=
        List.count_eq_zero.mpr h
      have hX : ("X" : String).toList = ['X'] := rfl
      rw [hX, count_X_append, this]
    · intro _
      rw [hcp]
      exact ⟨rfl, rfl, rfl⟩

/-- C10 witness: the marker operation is idempotent on a concrete session
and yields a pitch sequence containing 'X'. -/
theorem ball_in_play_marker_once_witness :
    ensure_ball_in_play_marker (ensure_ball_in_play_marker
      (baseSession [priorPlay02] 0)) =
      ensure_ball_in_play_marker (baseSession [priorPlay02] 0) ∧
    'X' ∈ (currentPlay (ensure_ball_in_play_marker
      (baseSession [priorPlay02] 0))).pitches.toList := by
  have h := ball_in_play_marker_once (baseSession [priorPlay02] 0)
    (by decide) (by decide)
  exact ⟨h.1, h.2.1⟩

/-- Record with three balls, awaiting ball four. -/
def ballThreePlay : Play :=
  { inning := 1, team := 0, batter_id := "bat1", count := "30",
    original_count := some "??", pitches := "BBB",
    play_description := "", edited := true }

/-- The next batter's empty record. -/
def nextBatterPlay : Play :=
  { inning := 1, team := 0, batter_id := "bat2", count := "00",
    original_count := some "??", pitches := "",
    play_description := "", edited := false }

def walkWitnessSession : EditorState :=
  baseSession [ballThreePlay, nextBatterPlay] 0

/-- C3 witness: ball four on a 3-0 record sets "W", count "30", and
advances to the next record. -/
theorem walk_on_four_balls_witness :
    (playAt (add_pitch walkWitnessSession 'B') 0 0).play_description =
      "W" ∧
    (playAt (add_pitch walkWitnessSession 'B') 0 0).count = "30" ∧
    (add_pitch walkWitnessSession 'B').current_play_index = 1 := by
  have h := walk_on_four_balls walkWitnessSession 'B' (by decide)
    (by decide) (by decide) (by decide) (by decide)
  exact ⟨h.1, h.2.1.trans (by decide), h.2.2.1⟩

/-- C6 witness: the ground-ball double play on fielders [6,4,3]. -/
theorem out_family_production_witness :
    generate_detailed_play_description "GDP" "G" (.list [6, 4, 3]) =
      "643/G/GDP" :=
  (out_family_production "GDP" "G" [6, 4, 3] (Or.inr (Or.inl rfl))
    (by decide) (by decide) (by decide) (by decide)).2

/-- C8 witness: an un-edited record parsed with the "??" sentinel writes
the sentinel back verbatim. -/
theorem unknown_count_round_trip_witness :
    count_to_write freshPlaySameBatter = "??" := by
  have h := unknown_count_round_trip freshPlaySameBatter (by decide)
  exact h.1.trans (by decide)

/-- C5 witness: pressing 'V' on a record with pitches "CC" appends only the
separator and enters detail mode pre-seeded for WP. -/
theorem wild_pitch_passed_ball_flow_witness :
    (currentPlay (add_pitch (baseSession [priorPlay02] 0) 'V')).pitches =
      "CC." ∧
    (add_pitch (baseSession [priorPlay02] 0) 'V').mode = "detail" ∧
    (add_pitch (baseSession [priorPlay02] 0) 'V').detail_mode_result =
      "WP" := by
  have h := wild_pitch_passed_ball_flow (baseSession [priorPlay02] 0) 'V'
    (by decide) (by decide) (Or.inl rfl)
  exact ⟨h.1.trans (by decide), h.2.2.1, h.2.2.2.1.trans (by decide)⟩
